import Mathlib

/-!
Shallow embedding of the provisioning core of the epic-backend repository:
the dual-write protocol between the external identity directory (Firebase
Auth, accessed through the firebase-admin SDK) and the MongoDB profile
collections (Student, StudentV2, Staff, User), as implemented by the route
handlers in src/routes/studentRoutes.js, src/controllers/userController.js,
and the staff/studentV2 route files.

Modelling conventions, applied uniformly:
- Strings model the JavaScript strings of request bodies; a missing body
  field is modelled as the empty string, matching the truthiness checks
  (`if (!name) ...`) the handlers use.
- MongoDB object ids are modelled as naturals assigned from a per-store
  counter; `createdAt`/`updatedAt` timestamps and the mongoose-internal
  bookkeeping fields (`passwordUpdated`, `lastPasswordUpdate`) are omitted:
  no claim mentions them.
- Firebase uids are strings assigned from a counter.
- External failures that the spec injects for its testable properties
  (a profile-store insert made to fail, an identity-directory operation
  failing with an error other than not-found) are explicit boolean
  parameters of the handler models.
- Each handler model returns the HTTP status code, the `error` field of the
  JSON body when the handler sends one, and the final state of both stores.
-/

namespace EpicBackend

/-! ## JavaScript string primitives

The JavaScript string methods the handlers use, re-implemented by structural
recursion over the character list so every handler model evaluates by kernel
reduction. -/

/-- JavaScript `String.prototype.trim`: strip whitespace from both ends. -/
def jsTrim (s : String) : String :=
  (((s.data.dropWhile Char.isWhitespace).reverse.dropWhile Char.isWhitespace).reverse).asString

/-- JavaScript `String.prototype.toLowerCase` (ASCII fragment). -/
def jsToLower (s : String) : String :=
  (s.data.map Char.toLower).asString

/-- JavaScript `String.prototype.toUpperCase` (ASCII fragment). -/
def jsToUpper (s : String) : String :=
  (s.data.map Char.toUpper).asString

/-! ## Email shape

Both route files validate emails with the same regular expression,
`/^[^\s@]+@[^\s@]+\.[^\s@]+$/`. -/

/-- Character class `[^\s@]` of the source's email regex. -/
def emailChar (c : Char) : Bool :=
  !c.isWhitespace && c != '@'

/-- Decides the email regex `/^[^\s@]+@[^\s@]+\.[^\s@]+$/` shared by the
route files: one or more non-space non-at characters, an at sign, then a
remainder of non-space non-at characters containing a dot that is neither
its first nor its last character. -/
def validEmailShape (s : String) : Bool :=
  let cs := s.data
  let l := cs.takeWhile (· != '@')
  match cs.dropWhile (· != '@') with
  | '@' :: d =>
      !l.isEmpty && !d.isEmpty && l.all emailChar && d.all emailChar &&
      ((d.drop 1).dropLast.contains '.')
  | _ => false

/-- Decides the registration-number regex `/^[A-Za-z0-9]+$/` of
studentRoutes.js. -/
def validRegNoShape (s : String) : Bool :=
  !s.isEmpty && s.data.all Char.isAlphanum

/-! ## Identity Directory (Firebase Auth) -/

/-- One account of the identity directory. -/
structure FbAccount where
  uid : String
  email : String
  password : String
  displayName : String
deriving Repr, DecidableEq

/-- Error codes of the firebase-admin auth API that the handlers branch on;
`other` stands for any further provider error. -/
inductive FbErr
  | userNotFound
  | emailExists
  | invalidEmail
  | weakPassword
  | other
deriving Repr, DecidableEq

/-- State of the identity directory: the accounts plus a counter from which
fresh uids are assigned. -/
structure FbState where
  accounts : List FbAccount
  nextUid : Nat
deriving Repr, DecidableEq

def FbState.lookup (fb : FbState) (email : String) : Option FbAccount :=
  fb.accounts.find? (·.email == email)

/-- Fresh uid assigned by the directory at account creation. -/
def freshUid (n : Nat) : String :=
  "uid-" ++ toString n

/-- Model of `admin.auth().getUserByEmail(email)`: a malformed email is
rejected with auth/invalid-email, an unknown one with auth/user-not-found. -/
def fbGetUserByEmail (fb : FbState) (email : String) : Except FbErr FbAccount :=
  if !validEmailShape email then .error .invalidEmail
  else match fb.lookup email with
    | some a => .ok a
    | none => .error .userNotFound

/-- Model of `admin.auth().createUser(...)` with the provider-side checks the
handlers branch on: invalid email, password shorter than six characters
(auth/weak-password), already-registered email (auth/email-already-exists). -/
def fbCreateUser (fb : FbState) (email password displayName : String) :
    Except FbErr (FbAccount × FbState) :=
  if !validEmailShape email then .error .invalidEmail
  else if password.length < 6 then .error .weakPassword
  else if (fb.lookup email).isSome then .error .emailExists
  else
    let a : FbAccount := ⟨freshUid fb.nextUid, email, password, displayName⟩
    .ok (a, ⟨fb.accounts ++ [a], fb.nextUid + 1⟩)

/-- Model of `admin.auth().deleteUser(uid)`. -/
def fbDeleteUser (fb : FbState) (uid : String) : Except FbErr FbState :=
  if fb.accounts.any (·.uid == uid) then
    .ok ⟨fb.accounts.filter (·.uid != uid), fb.nextUid⟩
  else .error .userNotFound

/-- `fbDeleteUser` with an injected transient provider failure (`fault`),
modelling a deletion that fails with an error other than user-not-found. -/
def fbDeleteUserF (fault : Bool) (fb : FbState) (uid : String) :
    Except FbErr FbState :=
  if fault then .error .other else fbDeleteUser fb uid

/-- Update payload of `admin.auth().updateUser(uid, {...})` as the handlers
build it: at most email, password and displayName. -/
structure FbUpdate where
  email : Option String := none
  password : Option String := none
  displayName : Option String := none
deriving Repr, DecidableEq

def FbUpdate.isEmpty (u : FbUpdate) : Bool :=
  u.email.isNone && u.password.isNone && u.displayName.isNone

/-- Model of `admin.auth().updateUser(uid, upd)`; `fault` injects a transient
provider failure. The provider validates the new email shape, global email
uniqueness, and the six-character password minimum. -/
def fbUpdateUser (fault : Bool) (fb : FbState) (uid : String) (u : FbUpdate) :
    Except FbErr FbState :=
  if fault then .error .other
  else match fb.accounts.find? (·.uid == uid) with
  | none => .error .userNotFound
  | some a =>
    let newEmail := u.email.getD a.email
    let newPassword := u.password.getD a.password
    if !validEmailShape newEmail then .error .invalidEmail
    else if fb.accounts.any (fun b => b.uid != uid && b.email == newEmail) then
      .error .emailExists
    else if newPassword.length < 6 then .error .weakPassword
    else
      let a' : FbAccount := ⟨a.uid, newEmail, newPassword, u.displayName.getD a.displayName⟩
      .ok ⟨fb.accounts.map (fun b => if b.uid == uid then a' else b), fb.nextUid⟩

/-! ## Generic list helpers mirroring single-document MongoDB writes -/

/-- `updateOne`: apply the patch to the first matching document only. -/
def updateFirst (p : α → Bool) (f : α → α) : List α → List α
  | [] => []
  | a :: as => if p a then f a :: as else a :: updateFirst p f as

/-- `deleteOne` / `findByIdAndDelete`: remove the first matching document. -/
def removeFirst (p : α → Bool) : List α → List α
  | [] => []
  | a :: as => if p a then as else a :: removeFirst p as

/-- Outcome of a handler that sends a response: HTTP status, the `error`
field of the JSON body when present, and the final state. -/
structure HttpResult (σ : Type) where
  status : Nat
  errMsg : Option String
  state : σ
deriving Repr, DecidableEq

/-- Profile-store insert errors the handlers branch on: MongoDB duplicate-key
(code 11000) on the email or regNo unique index, or any other error. -/
inductive DbErr
  | dupEmail
  | dupRegNo
  | generic
deriving Repr, DecidableEq

/-! ## Student collection of studentRoutes.js (model `Students`) -/

structure StudentDoc where
  oid : Nat
  regNo : String
  studentId : String
  name : String
  program : String
  email : String
  password : String
  status : String
deriving Repr, DecidableEq

structure StudentStore where
  docs : List StudentDoc
  nextOid : Nat
deriving Repr, DecidableEq

/-- Model of `new Student({...}).save()` for the Students collection:
an injected `fault` makes the insert fail (the deterministic profile-insert
failure of the spec's P2/P4), a duplicate email or regNo fails with the
corresponding duplicate-key error, otherwise the document is appended. -/
def studentInsert (fault : Bool) (db : StudentStore)
    (regNo studentId name program email password status : String) :
    Except DbErr (StudentDoc × StudentStore) :=
  if fault then .error .generic
  else if db.docs.any (·.email == email) then .error .dupEmail
  else if db.docs.any (·.regNo == regNo) then .error .dupRegNo
  else
    let d : StudentDoc := ⟨db.nextOid, regNo, studentId, name, program, email, password, status⟩
    .ok (d, ⟨db.docs ++ [d], db.nextOid + 1⟩)

/-- Model of POST /student of studentRoutes.js (lines 22-201): validation,
MongoDB email and regNo duplicate pre-checks, Firebase existence check
(only auth/user-not-found proceeds), Firebase account creation, MongoDB
insert; on an insert failure the catch block deletes the just-created
Firebase user (a failed cleanup is only logged) and answers with the
insert failure. `insertFault` injects a failing profile insert and
`cleanupFault` a failing compensating deletion. -/
def addStudent (insertFault cleanupFault : Bool) (fb : FbState) (db : StudentStore)
    (name program email password regNo status : String) :
    HttpResult (FbState × StudentStore) :=
  if name == "" || program == "" || email == "" || password == "" || regNo == "" || status == "" then
    ⟨400, some "Name, registration number, program, email, password, and status are required", (fb, db)⟩
  else if status != "Active" && status != "Hold" then
    ⟨400, some "Status must be either Active or Hold", (fb, db)⟩
  else if !validEmailShape email then
    ⟨400, some "Invalid email format", (fb, db)⟩
  else if !validRegNoShape regNo then
    ⟨400, some "Registration number must be alphanumeric", (fb, db)⟩
  else if password.length < 6 then
    ⟨400, some "Password must be at least 6 characters", (fb, db)⟩
  else
    let lowerEmail := jsTrim (jsToLower email)
    let upperRegNo := jsTrim (jsToUpper regNo)
    if db.docs.any (·.email == lowerEmail) then
      ⟨400, some "Student email already exists in database", (fb, db)⟩
    else if db.docs.any (·.regNo == upperRegNo) then
      ⟨400, some "Registration number already exists in database", (fb, db)⟩
    else
      match fbGetUserByEmail fb lowerEmail with
      | .ok _ => ⟨400, some "Email already exists in Firebase authentication system", (fb, db)⟩
      | .error e =>
        if e != .userNotFound then
          ⟨400, some "Firebase error", (fb, db)⟩
        else
          match fbCreateUser fb lowerEmail password (jsTrim name) with
          | .error .emailExists =>
              ⟨400, some "Email already exists in Firebase authentication system", (fb, db)⟩
          | .error .invalidEmail => ⟨400, some "Invalid email address", (fb, db)⟩
          | .error .weakPassword => ⟨400, some "Password is too weak", (fb, db)⟩
          | .error _ => ⟨500, some "Failed to add student", (fb, db)⟩
          | .ok (acct, fb1) =>
            match studentInsert insertFault db upperRegNo acct.uid (jsTrim name) (jsTrim program) lowerEmail password status with
            | .ok (_, db1) => ⟨201, none, (fb1, db1)⟩
            | .error dbe =>
              let fb2 := match fbDeleteUserF cleanupFault fb1 acct.uid with
                | .ok s => s
                | .error _ => fb1
              match dbe with
              | .dupEmail => ⟨400, some "Student email already exists in database", (fb2, db)⟩
              | .dupRegNo => ⟨400, some "Registration number already exists in database", (fb2, db)⟩
              | .generic => ⟨500, some "Failed to add student", (fb2, db)⟩

/-! ## Staff collection of the staff route file (model `Staff`) -/

structure StaffDoc where
  oid : Nat
  staffId : String
  name : String
  department : String
  email : String
  password : String
deriving Repr, DecidableEq

structure StaffStore where
  docs : List StaffDoc
  nextOid : Nat
deriving Repr, DecidableEq

/-- Model of `new Staff({...}).save()`: `fault` injects a failing insert, a
duplicate email fails with the duplicate-key error, otherwise append. -/
def staffInsert (fault : Bool) (db : StaffStore)
    (staffId name department email password : String) :
    Except DbErr (StaffDoc × StaffStore) :=
  if fault then .error .generic
  else if db.docs.any (·.email == email) then .error .dupEmail
  else
    let d : StaffDoc := ⟨db.nextOid, staffId, name, department, email, password⟩
    .ok (d, ⟨db.docs ++ [d], db.nextOid + 1⟩)

/-- Continuation of POST /staff after a Firebase account (created or adopted)
is in hand: MongoDB insert; on failure the catch block deletes the Firebase
user held in `firebaseUser` (cleanup errors ignored) and answers with the
insert failure (400 for duplicate key, 500 otherwise). -/
def addStaffFinish (insertFault : Bool) (fb : FbState) (acct : FbAccount)
    (db : StaffStore) (name department lowerEmail password : String) :
    HttpResult (FbState × StaffStore) :=
  match staffInsert insertFault db acct.uid (jsTrim name) (jsTrim department) lowerEmail password with
  | .ok (_, db1) => ⟨201, none, (fb, db1)⟩
  | .error e =>
    let fb2 := match fbDeleteUser fb acct.uid with
      | .ok s => s
      | .error _ => fb
    match e with
    | .dupEmail => ⟨400, some "Staff email already exists in database", (fb2, db)⟩
    | _ => ⟨500, some "Failed to add staff", (fb2, db)⟩

/-- Model of POST /staff of the staff route file (lines 46-156): validation
and a MongoDB duplicate pre-check, then the Firebase lookup. When the lookup
finds an existing account the handler adopts it (`firebaseUser` is assigned
the looked-up user and no rejection happens); only on auth/user-not-found is
a fresh account created. Either account then backs the MongoDB insert. -/
def addStaff (insertFault : Bool) (fb : FbState) (db : StaffStore)
    (name department email password : String) :
    HttpResult (FbState × StaffStore) :=
  if name == "" || department == "" || email == "" || password == "" then
    ⟨400, some "Name, department, email, and password are required", (fb, db)⟩
  else if !validEmailShape email then
    ⟨400, some "Invalid email format", (fb, db)⟩
  else if password.length < 6 then
    ⟨400, some "Password must be 6+ chars", (fb, db)⟩
  else
    let lowerEmail := jsTrim (jsToLower email)
    if db.docs.any (·.email == lowerEmail) then
      ⟨400, some "Staff email already exists in database", (fb, db)⟩
    else
      match fbGetUserByEmail fb lowerEmail with
      | .ok a => addStaffFinish insertFault fb a db name department lowerEmail password
      | .error .userNotFound =>
        match fbCreateUser fb lowerEmail password (jsTrim name) with
        | .ok (acct, fb1) => addStaffFinish insertFault fb1 acct db name department lowerEmail password
        | .error .emailExists => ⟨400, some "Email already exists in Firebase", (fb, db)⟩
        | .error _ => ⟨500, some "Failed to add staff", (fb, db)⟩
      | .error _ => ⟨500, some "Failed to add staff", (fb, db)⟩

/-! ## Generic-user collection of userController.js (model `User`) -/

structure UserDoc where
  oid : Nat
  name : String
  email : String
  password : String
  role : String
  program : Option String
  uid : String
  isActive : Bool
  createdAt : Nat
deriving Repr, DecidableEq

/-- State of the User collection; `now` models the clock stamped into
`createdAt` on insert. -/
structure UserStore where
  docs : List UserDoc
  nextOid : Nat
  now : Nat
deriving Repr, DecidableEq

/-- Model of `User.create(userData)`: `fault` injects a failing insert, a
duplicate email fails with the duplicate-key error, otherwise append. -/
def userInsert (fault : Bool) (us : UserStore)
    (name email password role : String) (program : Option String) (uid : String) :
    Except DbErr (UserDoc × UserStore) :=
  if fault then .error .generic
  else if us.docs.any (·.email == email) then .error .dupEmail
  else
    let d : UserDoc := ⟨us.nextOid, name, email, password, role, program, uid, true, us.now⟩
    .ok (d, ⟨us.docs ++ [d], us.nextOid + 1, us.now⟩)

/-- Outcome of a handler whose catch block can itself throw: either a
response was sent, or an exception escaped the async handler and no response
was ever sent (the request rejects with an unhandled error). -/
inductive COutcome (σ : Type)
  | responded (status : Nat) (errMsg : Option String) (state : σ)
  | crashed (state : σ)
deriving Repr, DecidableEq

/-- Model of UserController.createUser (userController.js lines 5-56).
MongoDB duplicate pre-check, Firebase account creation plus custom claims
(modelled as part of the successful creation), then `User.create`. The
source declares `let firebaseUser` INSIDE the outer try block, but the catch
block reads `firebaseUser`: in JavaScript that read is out of scope and
raises a ReferenceError inside the catch, so when `User.create` throws the
handler neither attempts the compensating Firebase deletion nor sends any
response — modelled as `.crashed` with the created account still present. -/
def createUserCtrl (insertFault : Bool) (fb : FbState) (us : UserStore)
    (name email password role : String) (program : Option String) :
    COutcome (FbState × UserStore) :=
  if us.docs.any (·.email == jsToLower email) then
    .responded 400 (some "User with this email already exists") (fb, us)
  else
    match fbCreateUser fb (jsToLower email) password name with
    | .error _ => .responded 400 (some "Firebase error") (fb, us)
    | .ok (acct, fb1) =>
      match userInsert insertFault us (jsTrim name) (jsTrim (jsToLower email)) password role
          (if role == "student" then program.map jsTrim else none) acct.uid with
      | .ok (_, us1) => .responded 201 none (fb1, us1)
      | .error _ => .crashed (fb1, us)

/-! ## Bulk creation, student route (POST /bulk-users of studentRoutes.js) -/

structure BulkStudentInput where
  name : String
  email : String
  password : String
  program : String
  regNo : String
  status : String
deriving Repr, DecidableEq

/-- One entry of the per-item `results` array of the bulk student upload. -/
structure BulkItemResult where
  email : String
  regNo : String
  success : Bool
  error : Option String
deriving Repr, DecidableEq

/-- One iteration of the bulk student loop (studentRoutes.js lines 250-413):
returns the pushed result entry, the Firebase uid appended to
`createdFirebaseUsers` when this iteration created an account, and the new
states. `insertFault` injects a failing `student.save()` for this item. -/
def bulkStudentStep (insertFault : Bool) (fb : FbState) (db : StudentStore)
    (u : BulkStudentInput) : BulkItemResult × Option String × FbState × StudentStore :=
  if u.name == "" || u.program == "" || u.email == "" || u.password == "" || u.regNo == "" || u.status == "" then
    (⟨if u.email == "" then "unknown" else u.email,
      if u.regNo == "" then "unknown" else u.regNo, false,
      some "Missing required fields"⟩, none, fb, db)
  else if u.status != "Active" && u.status != "Hold" then
    (⟨u.email, u.regNo, false, some "Status must be either Active or Hold"⟩, none, fb, db)
  else if !validEmailShape u.email then
    (⟨u.email, u.regNo, false, some "Invalid email format"⟩, none, fb, db)
  else if !validRegNoShape u.regNo then
    (⟨u.email, u.regNo, false, some "Registration number must be alphanumeric"⟩, none, fb, db)
  else if u.password.length < 6 then
    (⟨u.email, u.regNo, false, some "Password must be at least 6 characters"⟩, none, fb, db)
  else
    let lowerEmail := jsTrim (jsToLower u.email)
    let upperRegNo := jsTrim (jsToUpper u.regNo)
    match fbGetUserByEmail fb lowerEmail with
    | .ok _ =>
        (⟨lowerEmail, upperRegNo, false, some "Email already exists in Firebase"⟩, none, fb, db)
    | .error e =>
      if e != .userNotFound then
        (⟨lowerEmail, upperRegNo, false, some "Firebase error"⟩, none, fb, db)
      else if db.docs.any (·.email == lowerEmail) then
        (⟨lowerEmail, upperRegNo, false, some "Email already exists in database"⟩, none, fb, db)
      else if db.docs.any (·.regNo == upperRegNo) then
        (⟨lowerEmail, upperRegNo, false, some "Registration number already exists in database"⟩, none, fb, db)
      else
        match fbCreateUser fb lowerEmail u.password (jsTrim u.name) with
        | .error _ =>
            (⟨lowerEmail, upperRegNo, false, some "Firebase creation failed"⟩, none, fb, db)
        | .ok (acct, fb1) =>
          match studentInsert insertFault db upperRegNo acct.uid (jsTrim u.name) (jsTrim u.program) lowerEmail u.password u.status with
          | .ok (_, db1) => (⟨lowerEmail, upperRegNo, true, none⟩, some acct.uid, fb1, db1)
          | .error _ => (⟨lowerEmail, upperRegNo, false, some "save failed"⟩, some acct.uid, fb1, db)

/-- The `for (const user of users)` pass of the bulk student upload.
`fails i` makes the i-th item's profile insert fail. Returns the `results`
array, the `createdFirebaseUsers` uid list, and the final states. -/
def bulkStudentLoop (fails : Nat → Bool) (i : Nat) (fb : FbState) (db : StudentStore) :
    List BulkStudentInput → List BulkItemResult × List String × FbState × StudentStore
  | [] => ([], [], fb, db)
  | u :: rest =>
    let s := bulkStudentStep (fails i) fb db u
    let r := bulkStudentLoop fails (i + 1) s.2.2.1 s.2.2.2 rest
    (s.1 :: r.1, s.2.1.toList ++ r.2.1, r.2.2.1, r.2.2.2)

/-- One compensation deletion with its failure ignored (the try/catch around
`admin.auth().deleteUser` in the cleanup loops). -/
def fbCleanupStep (fb : FbState) (u : String) : FbState :=
  match fbDeleteUser fb u with
  | .ok s => s
  | .error _ => fb

/-- Group-level compensation loop: delete every tracked uid, ignoring
individual deletion failures (studentRoutes.js lines 419-426). -/
def fbCleanup (uids : List String) (fb : FbState) : FbState :=
  uids.foldl fbCleanupStep fb

/-- Result of a bulk run: status, the per-item results array, the tracked
created-uid list, and the final states. -/
structure BulkRun where
  status : Nat
  results : List BulkItemResult
  created : List String
  fb : FbState
  db : StudentStore
deriving Repr, DecidableEq

/-- Model of POST /bulk-users of studentRoutes.js (lines 230-444), for the
`type=student` query: the per-item pass, then — if any item failed and at
least one Firebase account was created — deletion of every account created
during the batch. -/
def bulkStudents (fails : Nat → Bool) (fb : FbState) (db : StudentStore)
    (users : List BulkStudentInput) : BulkRun :=
  if users.isEmpty then ⟨400, [], [], fb, db⟩
  else
    let r := bulkStudentLoop fails 0 fb db users
    let fb2 :=
      if r.1.any (fun x => !x.success) && !r.2.1.isEmpty then fbCleanup r.2.1 r.2.2.1
      else r.2.2.1
    ⟨200, r.1, r.2.1, fb2, r.2.2.2⟩

/-! ## Bulk creation, generic-user controller
(UserController.bulkCreateUsers, userController.js lines 58-160) -/

structure CtrlBulkInput where
  name : String
  email : String
  password : String
  role : String
  program : Option String
deriving Repr, DecidableEq

/-- Accumulated state of the controller bulk pass: the `results.success` and
`results.failed` counters, the `results.errors` messages (one per FAILED
item only), the `firebaseUsers` uid list, and the stores. -/
structure CtrlLoopOut where
  success : Nat
  failed : Nat
  errors : List String
  fbUids : List String
  fb : FbState
  us : UserStore
deriving Repr, DecidableEq

/-- One iteration of UserController.bulkCreateUsers' loop (lines 75-130). -/
def ctrlBulkStep (insertFault : Bool) (fb : FbState) (us : UserStore)
    (u : CtrlBulkInput) : Option String × Option String × FbState × UserStore :=
  if u.name == "" || u.email == "" || u.password == "" || u.role == "" then
    (some "Missing required fields", none, fb, us)
  else if us.docs.any (·.email == jsToLower u.email) then
    (some "User already exists", none, fb, us)
  else
    match fbCreateUser fb (jsToLower u.email) u.password u.name with
    | .error _ => (some "Firebase error", none, fb, us)
    | .ok (acct, fb1) =>
      match userInsert insertFault us (jsTrim u.name) (jsTrim (jsToLower u.email)) u.password u.role
          (if u.role == "student" then u.program.map jsTrim else none) acct.uid with
      | .ok (_, us1) => (none, some acct.uid, fb1, us1)
      | .error _ => (some "insert failed", some acct.uid, fb1, us)

/-- The controller's bulk pass; `fails i` makes the i-th item's
`User.create` fail. -/
def ctrlBulkLoop (fails : Nat → Bool) (i : Nat) (fb : FbState) (us : UserStore) :
    List CtrlBulkInput → CtrlLoopOut
  | [] => ⟨0, 0, [], [], fb, us⟩
  | u :: rest =>
    let s := ctrlBulkStep (fails i) fb us u
    let r := ctrlBulkLoop fails (i + 1) s.2.2.1 s.2.2.2 rest
    match s.1 with
    | some msg => ⟨r.success, r.failed + 1, msg :: r.errors, s.2.1.toList ++ r.fbUids, r.fb, r.us⟩
    | none => ⟨r.success + 1, r.failed, r.errors, s.2.1.toList ++ r.fbUids, r.fb, r.us⟩

structure CtrlBulkRes where
  status : Nat
  success : Nat
  failed : Nat
  errors : List String
  fb : FbState
  us : UserStore
deriving Repr, DecidableEq

/-- Model of UserController.bulkCreateUsers: the pass, then group cleanup of
the tracked Firebase uids ONLY when `results.success === 0 &&
createdUsers.length === 0` (both are zero exactly when no item reached a
successful `User.create`), answering 400; with at least one success the
handler answers 200 and performs no cleanup. -/
def bulkCreateUsersCtrl (fails : Nat → Bool) (fb : FbState) (us : UserStore)
    (users : List CtrlBulkInput) : CtrlBulkRes :=
  if users.isEmpty then ⟨400, 0, 0, [], fb, us⟩
  else
    let r := ctrlBulkLoop fails 0 fb us users
    if r.success == 0 then
      ⟨400, r.success, r.failed, r.errors, fbCleanup r.fbUids r.fb, r.us⟩
    else
      ⟨200, r.success, r.failed, r.errors, r.fb, r.us⟩

/-! ## StudentV2 collection of the V2 student route file (model `StudentV2`) -/

structure SDoc where
  oid : Nat
  studentId : String
  name : String
  program : String
  email : String
  password : String
  phone : String
deriving Repr, DecidableEq

structure SStore where
  docs : List SDoc
  nextOid : Nat
deriving Repr, DecidableEq

/-- Lookup used by the V2 by-id handlers: `findOne({studentId: id})` first,
then `findById(id)` (object ids rendered as decimal strings here). -/
def SStore.findByKey (db : SStore) (key : String) : Option SDoc :=
  match db.docs.find? (·.studentId == key) with
  | some d => some d
  | none => db.docs.find? (fun d => toString d.oid == key)

/-! ## Delete handlers -/

/-- Model of DELETE /student/:id of studentRoutes.js (lines 447-483):
resolve the student by object id; delete the Firebase account, where
auth/user-not-found is tolerated but ANY OTHER Firebase error answers 400
and returns BEFORE the MongoDB delete; otherwise delete the MongoDB row and
answer 200. `fbDeleteFault` injects a non-not-found Firebase failure.
The `ObjectId.isValid` guard is inherent in the `Nat` id type. -/
def deleteStudentById (fbDeleteFault : Bool) (fb : FbState) (db : StudentStore)
    (id : Nat) : HttpResult (FbState × StudentStore) :=
  match db.docs.find? (·.oid == id) with
  | none => ⟨404, some "Student not found", (fb, db)⟩
  | some student =>
    match fbDeleteUserF fbDeleteFault fb student.studentId with
    | .ok fb1 =>
        ⟨200, none, (fb1, ⟨removeFirst (·.oid == id) db.docs, db.nextOid⟩)⟩
    | .error .userNotFound =>
        ⟨200, none, (fb, ⟨removeFirst (·.oid == id) db.docs, db.nextOid⟩)⟩
    | .error _ => ⟨400, some "Firebase deletion failed", (fb, db)⟩

/-- Model of DELETE /:id of the staff route file (lines 616-649): resolve
the staff by staffId; attempt the Firebase deletion, continuing on ANY
failure; always delete the MongoDB row and answer 200. -/
def deleteStaffById (fbDeleteFault : Bool) (fb : FbState) (db : StaffStore)
    (id : String) : HttpResult (FbState × StaffStore) :=
  match db.docs.find? (·.staffId == id) with
  | none => ⟨404, some "Staff not found", (fb, db)⟩
  | some _ =>
    let fb1 := match fbDeleteUserF fbDeleteFault fb id with
      | .ok s => s
      | .error _ => fb
    ⟨200, none, (fb1, ⟨removeFirst (·.staffId == id) db.docs, db.nextOid⟩)⟩

/-- Model of DELETE /:id of the V2 student route file (lines 285-338):
resolve by studentId-then-objectId; delete the Firebase account keyed by the
stored studentId (falling back to an email lookup when studentId is empty),
swallowing every Firebase error; always delete the MongoDB row, 200. -/
def deleteStudentV2ById (fbDeleteFault : Bool) (fb : FbState) (db : SStore)
    (key : String) : HttpResult (FbState × SStore) :=
  match db.findByKey key with
  | none => ⟨404, some "Student not found", (fb, db)⟩
  | some student =>
    let fb1 :=
      if student.studentId != "" then
        match fbDeleteUserF fbDeleteFault fb student.studentId with
        | .ok s => s
        | .error _ => fb
      else
        match fbGetUserByEmail fb student.email with
        | .ok u =>
          match fbDeleteUserF fbDeleteFault fb u.uid with
          | .ok s => s
          | .error _ => fb
        | .error _ => fb
    ⟨200, none, (fb1, ⟨removeFirst (fun d => d.oid == student.oid) db.docs, db.nextOid⟩)⟩

/-! ## Delete-by-email handlers (identity deleted before the profile check) -/

/-- Model of DELETE /users of the staff route file (lines 209-259): after
input validation, the handler FIRST looks up and deletes the Firebase
account under the email (user-not-found and every other Firebase error are
only logged), and only THEN runs `deleteOne` on the staff or student
collection; a zero `deletedCount` answers 404 — but the Firebase deletion
has already happened. -/
def deleteUsersStaffRoute (fb : FbState) (staffDb : StaffStore) (sdb : SStore)
    (email tp : String) : HttpResult (FbState × StaffStore × SStore) :=
  if email == "" || tp == "" then
    ⟨400, some "Email and type (staff/student) are required", (fb, staffDb, sdb)⟩
  else if tp != "staff" && tp != "student" then
    ⟨400, some "Type must be either staff or student", (fb, staffDb, sdb)⟩
  else
    let lowerEmail := jsTrim (jsToLower email)
    let fb1 := match fbGetUserByEmail fb lowerEmail with
      | .ok u =>
        match fbDeleteUser fb u.uid with
        | .ok s => s
        | .error _ => fb
      | .error _ => fb
    if tp == "staff" then
      if staffDb.docs.any (·.email == lowerEmail) then
        ⟨200, none, (fb1, ⟨removeFirst (·.email == lowerEmail) staffDb.docs, staffDb.nextOid⟩, sdb)⟩
      else ⟨404, some "staff not found in database", (fb1, staffDb, sdb)⟩
    else
      if sdb.docs.any (·.email == lowerEmail) then
        ⟨200, none, (fb1, staffDb, ⟨removeFirst (·.email == lowerEmail) sdb.docs, sdb.nextOid⟩)⟩
      else ⟨404, some "student not found in database", (fb1, staffDb, sdb)⟩

/-- Model of DELETE /users of the V2 student route file (lines 341-404):
Firebase lookup (user-not-found continues, any other lookup error is
rethrown as a 500), Firebase deletion when the account exists (failures
logged and swallowed), then `deleteOne` on the student collection; a zero
`deletedCount` answers 404 after the identity is already gone. -/
def deleteUsersV2Route (fbDeleteFault : Bool) (fb : FbState) (db : SStore)
    (email tp : String) : HttpResult (FbState × SStore) :=
  if email == "" || tp == "" then
    ⟨400, some "Email and type (staff/student) are required", (fb, db)⟩
  else if tp != "student" then
    ⟨400, some "Type must be student for this endpoint", (fb, db)⟩
  else
    let lowerEmail := jsTrim (jsToLower email)
    match fbGetUserByEmail fb lowerEmail with
    | .error .userNotFound =>
      if db.docs.any (·.email == lowerEmail) then
        ⟨200, none, (fb, ⟨removeFirst (·.email == lowerEmail) db.docs, db.nextOid⟩)⟩
      else ⟨404, some "Student not found in database", (fb, db)⟩
    | .error _ => ⟨500, some "Failed to delete user", (fb, db)⟩
    | .ok u =>
      let fb1 := match fbDeleteUserF fbDeleteFault fb u.uid with
        | .ok s => s
        | .error _ => fb
      if db.docs.any (·.email == lowerEmail) then
        ⟨200, none, (fb1, ⟨removeFirst (·.email == lowerEmail) db.docs, db.nextOid⟩)⟩
      else ⟨404, some "Student not found in database", (fb1, db)⟩

/-! ## Update handlers -/

/-- The `$set` payload of PUT /update-user's `Student.updateOne` call
(studentRoutes.js lines 628-649), applied to the first document matching the
old email. The `updatedAt`, `passwordUpdated` and `lastPasswordUpdate`
timestamps are not modelled. -/
def studentApplyPatch (db : StudentStore)
    (lowerOld newEmail name program regNo status newPassword : String) : StudentStore :=
  ⟨updateFirst (·.email == lowerOld)
    (fun d =>
      { d with
        email := if newEmail != "" then jsTrim (jsToLower newEmail) else d.email
        name := if name != "" then jsTrim name else d.name
        program := if program != "" then jsTrim program else d.program
        regNo := if regNo != "" then jsTrim (jsToUpper regNo) else d.regNo
        status := if status != "" then status else d.status
        password := if newPassword != "" then newPassword else d.password })
    db.docs, db.nextOid⟩

/-- Tail of PUT /update-user once the Firebase user under the old email is in
hand: the optional new-email-in-use check, the Firebase update (applied
first; a thrown update maps to 400 for auth/email-already-exists, 500
otherwise, with no MongoDB write), then the unconditional `updateOne`. -/
def updateUserStudentApply (fbUpdateFault : Bool) (fb : FbState) (db : StudentStore)
    (user : FbAccount) (lowerOld newEmail name program regNo status newPassword : String) :
    HttpResult (FbState × StudentStore) :=
  let upd : FbUpdate :=
    { email := if newEmail != "" then some (jsToLower newEmail) else none
      password := if newPassword != "" then some newPassword else none
      displayName := if name != "" then some name else none }
  let fbRes : Except FbErr FbState :=
    if upd.isEmpty then .ok fb else fbUpdateUser fbUpdateFault fb user.uid upd
  match fbRes with
  | .error .emailExists => ⟨400, some "New email is already in use", (fb, db)⟩
  | .error _ => ⟨500, some "Failed to update user", (fb, db)⟩
  | .ok fb1 =>
      ⟨200, none, (fb1, studentApplyPatch db lowerOld newEmail name program regNo status newPassword)⟩

/-- Model of PUT /update-user of studentRoutes.js (lines 560-669): find the
student by old email, validate the new password length and the status enum
(the new email's FORMAT is never validated), resolve the Firebase user,
check the new email for prior use, then update Firebase first and MongoDB
second. `fbUpdateFault` injects a transient Firebase update failure. -/
def updateUserStudent (fbUpdateFault : Bool) (fb : FbState) (db : StudentStore)
    (oldEmail newEmail name program regNo status newPassword : String) :
    HttpResult (FbState × StudentStore) :=
  if oldEmail == "" then ⟨400, some "Old email is required", (fb, db)⟩
  else
    let lowerOld := jsTrim (jsToLower oldEmail)
    match db.docs.find? (·.email == lowerOld) with
    | none => ⟨404, some "Student not found in database", (fb, db)⟩
    | some _ =>
      if newPassword != "" && newPassword.length < 6 then
        ⟨400, some "New password must be at least 6 characters", (fb, db)⟩
      else if status != "" && status != "Active" && status != "Hold" then
        ⟨400, some "Status must be either Active or Hold", (fb, db)⟩
      else
        match fbGetUserByEmail fb lowerOld with
        | .error .userNotFound => ⟨404, some "User not found in Firebase", (fb, db)⟩
        | .error _ => ⟨500, some "Failed to update user", (fb, db)⟩
        | .ok user =>
          if newEmail != "" && lowerOld != jsToLower newEmail then
            match fbGetUserByEmail fb (jsToLower newEmail) with
            | .ok _ => ⟨400, some "New email is already in use", (fb, db)⟩
            | .error .userNotFound =>
                updateUserStudentApply fbUpdateFault fb db user lowerOld newEmail name program regNo status newPassword
            | .error _ => ⟨500, some "Failed to update user", (fb, db)⟩
          else
            updateUserStudentApply fbUpdateFault fb db user lowerOld newEmail name program regNo status newPassword

/-- Tail of the staff route's PUT /users once the Firebase user is resolved:
Firebase update first (when it has fields), then the type-selected
`updateOne` (when the Mongo patch has fields). -/
def updateUsersStaffApply (fbUpdateFault : Bool) (fb : FbState)
    (staffDb : StaffStore) (sdb : SStore) (user : FbAccount)
    (lowerOld newEmail newPassword name department program tp : String) :
    HttpResult (FbState × StaffStore × SStore) :=
  let upd : FbUpdate :=
    { email := if newEmail != "" then some (jsTrim (jsToLower newEmail)) else none
      password := if newPassword != "" then some newPassword else none
      displayName := if name != "" then some (jsTrim name) else none }
  let fbRes : Except FbErr FbState :=
    if upd.isEmpty then .ok fb else fbUpdateUser fbUpdateFault fb user.uid upd
  match fbRes with
  | .error .emailExists => ⟨400, some "New email is already in use", (fb, staffDb, sdb)⟩
  | .error _ => ⟨500, some "Failed to update user", (fb, staffDb, sdb)⟩
  | .ok fb1 =>
    let hasMongo := newEmail != "" || name != "" ||
      (tp == "staff" && department != "") || (tp == "student" && program != "")
    if !hasMongo then ⟨200, none, (fb1, staffDb, sdb)⟩
    else if tp == "staff" then
      ⟨200, none,
        (fb1,
         ⟨updateFirst (·.email == lowerOld)
           (fun d =>
             { d with
               email := if newEmail != "" then jsTrim (jsToLower newEmail) else d.email
               name := if name != "" then jsTrim name else d.name
               department := if department != "" then jsTrim department else d.department })
           staffDb.docs, staffDb.nextOid⟩,
         sdb)⟩
    else
      ⟨200, none,
        (fb1, staffDb,
         ⟨updateFirst (·.email == lowerOld)
           (fun d =>
             { d with
               email := if newEmail != "" then jsTrim (jsToLower newEmail) else d.email
               name := if name != "" then jsTrim name else d.name
               program := if program != "" then jsTrim program else d.program })
           sdb.docs, sdb.nextOid⟩)⟩

/-- Model of PUT /users of the staff route file (lines 265-373): input
validation INCLUDING the new email's format and the new password's length
before any store access, Firebase user resolution, new-email-in-use check,
then Firebase update first and MongoDB second. -/
def updateUsersStaffRoute (fbUpdateFault : Bool) (fb : FbState)
    (staffDb : StaffStore) (sdb : SStore)
    (oldEmail newEmail newPassword name department program tp : String) :
    HttpResult (FbState × StaffStore × SStore) :=
  if oldEmail == "" || (tp != "staff" && tp != "student") then
    ⟨400, some "oldEmail and valid type (staff|student) required", (fb, staffDb, sdb)⟩
  else if newEmail == "" && newPassword == "" && name == "" && department == "" && program == "" then
    ⟨400, some "At least one field to update must be provided", (fb, staffDb, sdb)⟩
  else
    let lowerOld := jsTrim (jsToLower oldEmail)
    if newEmail != "" && !validEmailShape newEmail then
      ⟨400, some "Invalid new email format", (fb, staffDb, sdb)⟩
    else if newPassword != "" && newPassword.length < 6 then
      ⟨400, some "New password must be at least 6 characters", (fb, staffDb, sdb)⟩
    else
      match fbGetUserByEmail fb lowerOld with
      | .error .userNotFound => ⟨404, some "User not found in Firebase", (fb, staffDb, sdb)⟩
      | .error _ => ⟨500, some "Failed to update user", (fb, staffDb, sdb)⟩
      | .ok user =>
        if newEmail != "" && jsTrim (jsToLower newEmail) != lowerOld then
          match fbGetUserByEmail fb (jsTrim (jsToLower newEmail)) with
          | .ok _ => ⟨400, some "New email is already in use", (fb, staffDb, sdb)⟩
          | .error .userNotFound =>
              updateUsersStaffApply fbUpdateFault fb staffDb sdb user lowerOld newEmail newPassword name department program tp
          | .error _ => ⟨500, some "Failed to update user", (fb, staffDb, sdb)⟩
        else
          updateUsersStaffApply fbUpdateFault fb staffDb sdb user lowerOld newEmail newPassword name department program tp

/-- Model of PUT /:id of the V2 student route file (lines 222-282): resolve
the student by studentId-then-objectId; when the email is changing, look up
the Firebase user by the STORED email and update it — with every Firebase
error merely logged and swallowed — then ALWAYS apply the MongoDB patch via
`findByIdAndUpdate` and answer 200. -/
def updateStudentV2 (fbUpdateFault : Bool) (fb : FbState) (db : SStore)
    (key name email program phone : String) : HttpResult (FbState × SStore) :=
  match db.findByKey key with
  | none => ⟨404, some "Student not found", (fb, db)⟩
  | some student =>
    let fb1 :=
      if email != "" && student.email != jsToLower email then
        match fbGetUserByEmail fb student.email with
        | .ok u =>
          match fbUpdateUser fbUpdateFault fb u.uid
              ⟨some (jsToLower email), none,
               some (if name != "" then name else student.name)⟩ with
          | .ok s => s
          | .error _ => fb
        | .error _ => fb
      else fb
    ⟨200, none,
      (fb1,
       ⟨updateFirst (fun d => d.oid == student.oid)
         (fun d =>
           { d with
             name := if name != "" then name else d.name
             email := if email != "" then jsToLower email else d.email
             program := if program != "" then program else d.program
             phone := if phone != "" then phone else d.phone })
         db.docs, db.nextOid⟩)⟩

/-! ## Generic-user read endpoints (userController.js lines 162-230) and the
User schema's `getProfile` method (User.js lines 46-56) -/

/-- Shape of a User document after `.select('-password')`: every schema
field except `password`. -/
structure PublicUserDoc where
  oid : Nat
  name : String
  email : String
  role : String
  program : Option String
  uid : String
  isActive : Bool
  createdAt : Nat
deriving Repr, DecidableEq

/-- The `.select('-password')` projection. -/
def redactPassword (u : UserDoc) : PublicUserDoc :=
  ⟨u.oid, u.name, u.email, u.role, u.program, u.uid, u.isActive, u.createdAt⟩

/-- Shape of `userSchema.methods.getProfile()`: exactly `_id`, `name`,
`email`, `role`, `program`, `isActive`, `createdAt`. -/
structure UserProfile where
  oid : Nat
  name : String
  email : String
  role : String
  program : Option String
  isActive : Bool
  createdAt : Nat
deriving Repr, DecidableEq

/-- Model of `userSchema.methods.getProfile`. -/
def getProfile (u : UserDoc) : UserProfile :=
  ⟨u.oid, u.name, u.email, u.role, u.program, u.isActive, u.createdAt⟩

/-- Model of UserController.getUsers for a request without a search term:
filter by role (when it is one of student/staff/admin) and by
`isActive: true`, and return the documents through `.select('-password')`.
Sorting by creation date, the regex search and the skip/limit pagination
select and order rows but read no further fields and are not modelled. -/
def getUsers (us : UserStore) (role? : Option String) : List PublicUserDoc :=
  let base : List UserDoc :=
    match role? with
    | some r =>
      if r == "student" || r == "staff" || r == "admin" then
        us.docs.filter (·.role == r)
      else us.docs
    | none => us.docs
  (base.filter (·.isActive)).map redactPassword

/-- Model of UserController.getUser when the path parameter is a valid
object id: `User.findById(id).select('-password')`. -/
def getUserById (us : UserStore) (oid : Nat) : Option PublicUserDoc :=
  (us.docs.find? (·.oid == oid)).map redactPassword

/-- Model of UserController.getUser when the path parameter is not an object
id: `User.findOne({email: id.toLowerCase()}).select('-password')`. -/
def getUserByEmailKey (us : UserStore) (key : String) : Option PublicUserDoc :=
  (us.docs.find? (·.email == jsToLower key)).map redactPassword

/-- Rewrite every stored password (an arbitrary per-document change of the
secret field, used to state that read responses are independent of it). -/
def remapPasswords (g : UserDoc → String) (us : UserStore) : UserStore :=
  ⟨us.docs.map (fun d => { d with password := g d }), us.nextOid, us.now⟩

/-- Rewrite a document's password and uid (the two fields `getProfile`
drops). -/
def setSecretFields (u : UserDoc) (pw uid : String) : UserDoc :=
  { u with password := pw, uid := uid }

/-- HTTP status of a `COutcome`, `none` when the handler never responded. -/
def COutcome.statusOf : COutcome σ → Option Nat
  | .responded s _ _ => some s
  | .crashed _ => none

/-- Final state carried by a `COutcome`. -/
def COutcome.stateOf : COutcome σ → σ
  | .responded _ _ st => st
  | .crashed st => st

/-! ## Lemmas about the compensation loop -/

theorem fbCleanupStep_mem {a : FbAccount} {fb : FbState} {u : String}
    (h : a ∈ (fbCleanupStep fb u).accounts) : a ∈ fb.accounts := by
  by_cases hP : fb.accounts.any (fun b => b.uid == u) = true
  · simp only [fbCleanupStep, fbDeleteUser, hP, if_true] at h
    exact (List.mem_filter.mp h).1
  · simp only [fbCleanupStep, fbDeleteUser, hP, if_false, Bool.false_eq_true] at h
    exact h

theorem fbCleanupStep_uid_ne {a : FbAccount} {fb : FbState} {u : String}
    (h : a ∈ (fbCleanupStep fb u).accounts) : a.uid ≠ u := by
  by_cases hP : fb.accounts.any (fun b => b.uid == u) = true
  · simp only [fbCleanupStep, fbDeleteUser, hP, if_true] at h
    have h2 := (List.mem_filter.mp h).2
    simpa using h2
  · simp only [fbCleanupStep, fbDeleteUser, hP, if_false, Bool.false_eq_true] at h
    intro hEq
    exact hP (List.any_eq_true.mpr ⟨a, h, by simp [hEq]⟩)

theorem fbCleanup_mem {a : FbAccount} :
    ∀ (uids : List String) (fb : FbState),
      a ∈ (fbCleanup uids fb).accounts → a ∈ fb.accounts := by
  intro uids
  induction uids with
  | nil => intro fb h; exact h
  | cons u t ih =>
    intro fb h
    simp only [fbCleanup, List.foldl_cons] at h
    exact fbCleanupStep_mem (ih (fbCleanupStep fb u) h)

theorem fbCleanup_removes {u : String} :
    ∀ (uids : List String) (fb : FbState), u ∈ uids →
      ∀ a ∈ (fbCleanup uids fb).accounts, a.uid ≠ u := by
  intro uids
  induction uids with
  | nil => intro fb h; cases h
  | cons v t ih =>
    intro fb hm a ha
    simp only [fbCleanup, List.foldl_cons] at ha
    rcases List.mem_cons.mp hm with h1 | h2
    · subst h1
      exact fbCleanupStep_uid_ne (fbCleanup_mem t (fbCleanupStep fb u) ha)
    · exact ih (fbCleanupStep fb v) h2 a ha

/-! ## Lemmas about the password-redacting reads -/

theorem redactPassword_remap (g : UserDoc → String) (d : UserDoc) :
    redactPassword { d with password := g d } = redactPassword d := rfl

theorem filter_secret_map (q : UserDoc → Bool) (g : UserDoc → String)
    (hq : ∀ d, q { d with password := g d } = q d) :
    ∀ l : List UserDoc,
      (l.map (fun d => { d with password := g d })).filter q
        = (l.filter q).map (fun d => { d with password := g d }) := by
  intro l
  induction l with
  | nil => rfl
  | cons d t ih =>
    by_cases h : q d = true
    · simp [List.filter_cons, hq, h, ih]
    · simp [List.filter_cons, hq, h, ih]

theorem mapRedact_secret (g : UserDoc → String) :
    ∀ l : List UserDoc,
      (l.map (fun d => { d with password := g d })).map redactPassword
        = l.map redactPassword := by
  intro l
  induction l with
  | nil => rfl
  | cons d t ih => simp [ih, redactPassword_remap]

theorem find_secret_map (q : UserDoc → Bool) (g : UserDoc → String)
    (hq : ∀ d, q { d with password := g d } = q d) :
    ∀ l : List UserDoc,
      ((l.map (fun d => { d with password := g d })).find? q).map redactPassword
        = (l.find? q).map redactPassword := by
  intro l
  induction l with
  | nil => rfl
  | cons d t ih =>
    simp only [List.map_cons]
    by_cases h : q d = true
    · rw [List.find?_cons_of_pos _ (by simp [hq, h]), List.find?_cons_of_pos _ h]
      rfl
    · rw [List.find?_cons_of_neg _ (by simp [hq, h]), List.find?_cons_of_neg _ h]
      exact ih

theorem getUsers_remap (g : UserDoc → String) (us : UserStore) (role? : Option String) :
    getUsers (remapPasswords g us) role? = getUsers us role? := by
  cases role? with
  | none =>
    simp only [getUsers, remapPasswords]
    rw [filter_secret_map (fun d => d.isActive) g (fun d => rfl), mapRedact_secret]
  | some r =>
    by_cases hr : (r == "student" || r == "staff" || r == "admin") = true
    · simp only [getUsers, remapPasswords, hr, if_true]
      rw [filter_secret_map (fun d => d.role == r) g (fun d => rfl),
        filter_secret_map (fun d => d.isActive) g (fun d => rfl), mapRedact_secret]
    · simp only [getUsers, remapPasswords, hr, if_false, Bool.false_eq_true]
      rw [filter_secret_map (fun d => d.isActive) g (fun d => rfl), mapRedact_secret]

/-- C10. The generic-user read endpoints never reveal the stored plaintext
credential: the responses of getUsers and getUser are unchanged under an
arbitrary rewrite of every stored password (they are built through the
select-minus-password projection), and `getProfile` is unchanged under a
rewrite of a document's password and uid; moreover `getProfile` returns
exactly the id, name, email, role, program, isActive and createdAt fields. -/
theorem c10_reads_independent_of_secret (g : UserDoc → String) (us : UserStore)
    (role? : Option String) (oid : Nat) (key : String) (u : UserDoc) (pw uid : String) :
    getUsers (remapPasswords g us) role? = getUsers us role? ∧
    getUserById (remapPasswords g us) oid = getUserById us oid ∧
    getUserByEmailKey (remapPasswords g us) key = getUserByEmailKey us key ∧
    getProfile (setSecretFields u pw uid) = getProfile u ∧
    getProfile u = ⟨u.oid, u.name, u.email, u.role, u.program, u.isActive, u.createdAt⟩ := by
  refine ⟨getUsers_remap g us role?, ?_, ?_, rfl, rfl⟩
  · simp only [getUserById, remapPasswords]
    exact find_secret_map (fun d => d.oid == oid) g (fun d => rfl) us.docs
  · simp only [getUserByEmailKey, remapPasswords]
    exact find_secret_map (fun d => d.email == jsToLower key) g (fun d => rfl) us.docs

/-- C1. When the profile insert fails after the identity account was
created, the student route's catch block deletes the just-created Firebase
account and answers with the insert failure (here a 500), but
UserController.createUser's catch block reads the block-scoped
`firebaseUser` binding from outside its scope, raising a ReferenceError: at
the same failing input the controller neither deletes the created identity
(the account is still present in the final state) nor sends any response. -/
theorem c1_create_compensation_crash :
    addStudent true false ⟨[], 0⟩ ⟨[], 0⟩ "Ann" "CS" "a@x.com" "secret1" "cs101" "Active"
      = ⟨500, some "Failed to add student", (⟨[], 1⟩, ⟨[], 0⟩)⟩ ∧
    createUserCtrl true ⟨[], 0⟩ ⟨[], 0, 7⟩ "Ann" "a@x.com" "secret1" "student" none
      = .crashed (⟨[⟨"uid-0", "a@x.com", "secret1", "Ann"⟩], 1⟩, ⟨[], 0, 7⟩) := by
  constructor
  · decide
  · decide

/-! ## C2: bulk creation -/

theorem bulkStudentLoop_length (fails : Nat → Bool) :
    ∀ (l : List BulkStudentInput) (i : Nat) (fb : FbState) (db : StudentStore),
      (bulkStudentLoop fails i fb db l).1.length = l.length := by
  intro l
  induction l with
  | nil => intro i fb db; rfl
  | cons u t ih =>
    intro i fb db
    simp [bulkStudentLoop, ih]

theorem bulkStudents_results_length (fails : Nat → Bool) (fb : FbState)
    (db : StudentStore) (users : List BulkStudentInput) :
    (bulkStudents fails fb db users).results.length = users.length := by
  by_cases hE : users.isEmpty = true
  · have : users = [] := by
      cases users with
      | nil => rfl
      | cons u t => cases hE
    subst this
    rfl
  · simp only [bulkStudents, if_neg hE]
    exact bulkStudentLoop_length fails users 0 fb db

theorem bulkStudents_compensation (fails : Nat → Bool) (fb : FbState)
    (db : StudentStore) (users : List BulkStudentInput) (run : BulkRun)
    (hrun : bulkStudents fails fb db users = run)
    (hfail : run.results.any (fun r => !r.success) = true) :
    run.created.all
      (fun u => run.fb.accounts.all (fun a => !(a.uid == u))) = true := by
  subst hrun
  rw [List.all_eq_true]
  intro u hu
  rw [List.all_eq_true]
  intro a ha
  by_cases hE : users.isEmpty = true
  · simp [bulkStudents, hE] at hu
  · simp only [bulkStudents, if_neg hE] at hu ha hfail
    have hne : (bulkStudentLoop fails 0 fb db users).2.1.isEmpty = false := by
      rcases hL : (bulkStudentLoop fails 0 fb db users).2.1 with _ | ⟨x, xs⟩
      · rw [hL] at hu; cases hu
      · rfl
    rw [hfail, hne] at ha
    simp only [Bool.not_false, Bool.and_true, if_true] at ha
    have := fbCleanup_removes (bulkStudentLoop fails 0 fb db users).2.1
      (bulkStudentLoop fails 0 fb db users).2.2.1 hu a ha
    simpa using this

theorem ctrlBulk_no_cleanup (fails : Nat → Bool) (fb : FbState) (us : UserStore)
    (users : List CtrlBulkInput)
    (h : 0 < (ctrlBulkLoop fails 0 fb us users).success) :
    bulkCreateUsersCtrl fails fb us users =
      ⟨200, (ctrlBulkLoop fails 0 fb us users).success,
        (ctrlBulkLoop fails 0 fb us users).failed,
        (ctrlBulkLoop fails 0 fb us users).errors,
        (ctrlBulkLoop fails 0 fb us users).fb,
        (ctrlBulkLoop fails 0 fb us users).us⟩ := by
  by_cases hE : users.isEmpty = true
  · exfalso
    have : users = [] := by
      cases users with
      | nil => rfl
      | cons u t => cases hE
    subst this
    simp [ctrlBulkLoop] at h
  · have hs : ((ctrlBulkLoop fails 0 fb us users).success == 0) = false := by
      rw [beq_eq_false_iff_ne]
      omega
    simp only [bulkCreateUsersCtrl, if_neg hE, hs, Bool.false_eq_true, if_false]

/-- C2 counterexample. A two-item generic-user batch where the second item's
profile insert fails: the pass ends with one success and one failure, yet
UserController.bulkCreateUsers performs no compensation (both Firebase
accounts, including the failed item's uid-1, remain in the directory) and
its errors array has a single entry for the two inputs. -/
theorem c2_ctrl_bulk_keeps_identities :
    bulkCreateUsersCtrl (fun i => i == 1) ⟨[], 0⟩ ⟨[], 0, 7⟩
        [⟨"A", "a@x.com", "secret1", "student", none⟩,
         ⟨"B", "b@x.com", "secret1", "student", none⟩] =
      ⟨200, 1, 1, ["insert failed"],
        ⟨[⟨"uid-0", "a@x.com", "secret1", "A"⟩, ⟨"uid-1", "b@x.com", "secret1", "B"⟩], 2⟩,
        ⟨[⟨0, "A", "a@x.com", "secret1", "student", none, "uid-0", true, 7⟩], 1, 7⟩⟩ := by
  decide

/-- C2 (amended). For the student bulk route, the per-item results array has
exactly one entry per input, and after a batch in which any item failed
every identity account created during the batch has been deleted from the
directory; UserController.bulkCreateUsers instead performs no group
compensation whenever at least one item succeeded (its response is built
directly from the loop state, retaining every created identity). -/
theorem c2_bulk_group_compensation :
    (∀ (fails : Nat → Bool) (fb : FbState) (db : StudentStore) (users : List BulkStudentInput),
      (bulkStudents fails fb db users).results.length = users.length) ∧
    (∀ (fails : Nat → Bool) (fb : FbState) (db : StudentStore)
        (users : List BulkStudentInput) (run : BulkRun),
      bulkStudents fails fb db users = run →
      run.results.any (fun r => !r.success) = true →
      run.created.all (fun u => run.fb.accounts.all (fun a => !(a.uid == u))) = true) ∧
    (∀ (fails : Nat → Bool) (fb : FbState) (us : UserStore) (users : List CtrlBulkInput),
      0 < (ctrlBulkLoop fails 0 fb us users).success →
      bulkCreateUsersCtrl fails fb us users =
        ⟨200, (ctrlBulkLoop fails 0 fb us users).success,
          (ctrlBulkLoop fails 0 fb us users).failed,
          (ctrlBulkLoop fails 0 fb us users).errors,
          (ctrlBulkLoop fails 0 fb us users).fb,
          (ctrlBulkLoop fails 0 fb us users).us⟩) :=
  ⟨bulkStudents_results_length, bulkStudents_compensation, ctrlBulk_no_cleanup⟩

/-- Witness for C2: a student batch whose second item's insert fails keeps
one result entry per input and ends with every created identity deleted; a
generic-user batch with one success skips compensation. -/
theorem c2_bulk_group_compensation_witness :
    ((bulkStudents (fun i => i == 1) ⟨[], 0⟩ ⟨[], 0⟩
        [⟨"A", "a@x.com", "secret1", "CS", "r1", "Active"⟩,
         ⟨"B", "b@x.com", "secret1", "CS", "r2", "Active"⟩]).results.length = 2) ∧
    ((bulkStudents (fun i => i == 1) ⟨[], 0⟩ ⟨[], 0⟩
        [⟨"A", "a@x.com", "secret1", "CS", "r1", "Active"⟩,
         ⟨"B", "b@x.com", "secret1", "CS", "r2", "Active"⟩]).results.any (fun r => !r.success) = true ∧
      (bulkStudents (fun i => i == 1) ⟨[], 0⟩ ⟨[], 0⟩
        [⟨"A", "a@x.com", "secret1", "CS", "r1", "Active"⟩,
         ⟨"B", "b@x.com", "secret1", "CS", "r2", "Active"⟩]).created.all
        (fun u => (bulkStudents (fun i => i == 1) ⟨[], 0⟩ ⟨[], 0⟩
          [⟨"A", "a@x.com", "secret1", "CS", "r1", "Active"⟩,
           ⟨"B", "b@x.com", "secret1", "CS", "r2", "Active"⟩]).fb.accounts.all
            (fun a => !(a.uid == u))) = true) ∧
    (0 < (ctrlBulkLoop (fun _ => false) 0 ⟨[], 0⟩ ⟨[], 0, 7⟩
        [⟨"A", "a@x.com", "secret1", "student", none⟩]).success ∧
      bulkCreateUsersCtrl (fun _ => false) ⟨[], 0⟩ ⟨[], 0, 7⟩
          [⟨"A", "a@x.com", "secret1", "student", none⟩] =
        ⟨200, (ctrlBulkLoop (fun _ => false) 0 ⟨[], 0⟩ ⟨[], 0, 7⟩
            [⟨"A", "a@x.com", "secret1", "student", none⟩]).success,
          (ctrlBulkLoop (fun _ => false) 0 ⟨[], 0⟩ ⟨[], 0, 7⟩
            [⟨"A", "a@x.com", "secret1", "student", none⟩]).failed,
          (ctrlBulkLoop (fun _ => false) 0 ⟨[], 0⟩ ⟨[], 0, 7⟩
            [⟨"A", "a@x.com", "secret1", "student", none⟩]).errors,
          (ctrlBulkLoop (fun _ => false) 0 ⟨[], 0⟩ ⟨[], 0, 7⟩
            [⟨"A", "a@x.com", "secret1", "student", none⟩]).fb,
          (ctrlBulkLoop (fun _ => false) 0 ⟨[], 0⟩ ⟨[], 0, 7⟩
            [⟨"A", "a@x.com", "secret1", "student", none⟩]).us⟩) := by
  refine ⟨?_, ⟨by decide, ?_⟩, ⟨by decide, ?_⟩⟩
  · exact c2_bulk_group_compensation.1 _ _ _ _
  · exact c2_bulk_group_compensation.2.1 _ _ _ _ _ rfl (by decide)
  · exact c2_bulk_group_compensation.2.2 _ _ _ _ (by decide)

/-! ## C3: the identity-existence check on create -/

theorem addStudent_conflict_rejected (insertFault cleanupFault : Bool)
    (fb : FbState) (db : StudentStore)
    (name program email password regNo status : String) (a : FbAccount)
    (h1 : (name == "" || program == "" || email == "" || password == "" ||
      regNo == "" || status == "") = false)
    (h2 : (status != "Active" && status != "Hold") = false)
    (h3 : validEmailShape email = true)
    (h4 : validRegNoShape regNo = true)
    (h5 : ¬ password.length < 6)
    (h6 : db.docs.any (fun d => d.email == jsTrim (jsToLower email)) = false)
    (h7 : db.docs.any (fun d => d.regNo == jsTrim (jsToUpper regNo)) = false)
    (h8 : validEmailShape (jsTrim (jsToLower email)) = true)
    (h9 : fb.lookup (jsTrim (jsToLower email)) = some a) :
    addStudent insertFault cleanupFault fb db name program email password regNo status =
      ⟨400, some "Email already exists in Firebase authentication system", (fb, db)⟩ := by
  simp [addStudent, fbGetUserByEmail, h1, h2, h3, h4, h5, h6, h7, h8, h9]

theorem addStudent_conflict_no_mutation (insertFault cleanupFault : Bool)
    (fb : FbState) (db : StudentStore)
    (name program email password regNo status : String) (a : FbAccount)
    (h9 : fb.lookup (jsTrim (jsToLower email)) = some a) :
    (addStudent insertFault cleanupFault fb db name program email password regNo status).status = 400 ∧
    (addStudent insertFault cleanupFault fb db name program email password regNo status).state = (fb, db) := by
  by_cases hs : validEmailShape (jsTrim (jsToLower email)) = true
  · have hfb : fbGetUserByEmail fb (jsTrim (jsToLower email)) = .ok a := by
      simp [fbGetUserByEmail, hs, h9]
    unfold addStudent
    repeat' split
    all_goals simp_all
    all_goals repeat' split
    all_goals simp
  · have hfb : fbGetUserByEmail fb (jsTrim (jsToLower email)) = .error .invalidEmail := by
      simp [fbGetUserByEmail, hs]
    unfold addStudent
    repeat' split
    all_goals simp_all
    all_goals repeat' split
    all_goals simp

theorem addStaff_adopts (insertFault : Bool) (fb : FbState) (db : StaffStore)
    (name department email password : String) (a : FbAccount)
    (h1 : (name == "" || department == "" || email == "" || password == "") = false)
    (h2 : validEmailShape email = true)
    (h3 : ¬ password.length < 6)
    (h4 : db.docs.any (fun d => d.email == jsTrim (jsToLower email)) = false)
    (h5 : validEmailShape (jsTrim (jsToLower email)) = true)
    (h6 : fb.lookup (jsTrim (jsToLower email)) = some a)
    (h7 : insertFault = false) :
    addStaff insertFault fb db name department email password =
      ⟨201, none,
        (fb,
         ⟨db.docs ++ [⟨db.nextOid, a.uid, jsTrim name, jsTrim department,
            jsTrim (jsToLower email), password⟩], db.nextOid + 1⟩)⟩ := by
  subst h7
  simp [addStaff, fbGetUserByEmail, addStaffFinish, staffInsert,
    h1, h2, h3, h4, h5, h6]

theorem createUserCtrl_conflict (insertFault : Bool) (fb : FbState) (us : UserStore)
    (name email password role : String) (program : Option String)
    (h : (fb.lookup (jsToLower email)).isSome = true) :
    (createUserCtrl insertFault fb us name email password role program).statusOf = some 400 ∧
    (createUserCtrl insertFault fb us name email password role program).stateOf = (fb, us) := by
  unfold createUserCtrl
  by_cases hdup : us.docs.any (fun d => d.email == jsToLower email) = true
  · simp [hdup, COutcome.statusOf, COutcome.stateOf]
  · have hcreate : ∃ e, fbCreateUser fb (jsToLower email) password name = .error e := by
      by_cases hs : validEmailShape (jsToLower email) = true
      · by_cases hp : password.length < 6
        · exact ⟨.weakPassword, by simp [fbCreateUser, hs, hp]⟩
        · exact ⟨.emailExists, by simp [fbCreateUser, hs, hp, h]⟩
      · exact ⟨.invalidEmail, by simp [fbCreateUser, hs]⟩
    obtain ⟨e, he⟩ := hcreate
    simp [hdup, he, COutcome.statusOf, COutcome.stateOf]

/-- C3 counterexample. A staff create for an email that already has an
account in the Identity Directory (and no staff profile) is NOT rejected
with a Conflict: the handler adopts the existing account u9 and creates the
profile row against it, answering 201. -/
theorem c3_staff_adopt :
    addStaff false ⟨[⟨"u9", "a@x.com", "pw123456", "Old"⟩], 5⟩ ⟨[], 0⟩ "Ann" "CS" "a@x.com" "secret1" =
      ⟨201, none,
        (⟨[⟨"u9", "a@x.com", "pw123456", "Old"⟩], 5⟩,
         ⟨[⟨0, "u9", "Ann", "CS", "a@x.com", "secret1"⟩], 1⟩)⟩ := by
  decide

/-- C3 (amended). The student create rejects an email that already has an
identity account: when the lookup under the normalized email finds one it
answers 400 with the Firebase-conflict message, and whenever such an account
exists the student create answers 400 with both stores untouched — no
identity is created and no profile row is written. The generic-user create
performs no identity lookup but still answers 400 with both stores untouched
(the provider refuses the duplicate creation). The staff create, however,
adopts the pre-existing identity account and proceeds: it answers 201 and
inserts a profile row carrying the adopted account's uid. -/
theorem c3_identity_conflict :
    (∀ (insertFault cleanupFault : Bool) (fb : FbState) (db : StudentStore)
        (name program email password regNo status : String) (a : FbAccount),
      (name == "" || program == "" || email == "" || password == "" ||
        regNo == "" || status == "") = false →
      (status != "Active" && status != "Hold") = false →
      validEmailShape email = true →
      validRegNoShape regNo = true →
      ¬ password.length < 6 →
      db.docs.any (fun d => d.email == jsTrim (jsToLower email)) = false →
      db.docs.any (fun d => d.regNo == jsTrim (jsToUpper regNo)) = false →
      validEmailShape (jsTrim (jsToLower email)) = true →
      fb.lookup (jsTrim (jsToLower email)) = some a →
      addStudent insertFault cleanupFault fb db name program email password regNo status =
        ⟨400, some "Email already exists in Firebase authentication system", (fb, db)⟩) ∧
    (∀ (insertFault cleanupFault : Bool) (fb : FbState) (db : StudentStore)
        (name program email password regNo status : String) (a : FbAccount),
      fb.lookup (jsTrim (jsToLower email)) = some a →
      (addStudent insertFault cleanupFault fb db name program email password regNo status).status = 400 ∧
      (addStudent insertFault cleanupFault fb db name program email password regNo status).state = (fb, db)) ∧
    (∀ (insertFault : Bool) (fb : FbState) (us : UserStore)
        (name email password role : String) (program : Option String),
      (fb.lookup (jsToLower email)).isSome = true →
      (createUserCtrl insertFault fb us name email password role program).statusOf = some 400 ∧
      (createUserCtrl insertFault fb us name email password role program).stateOf = (fb, us)) ∧
    (∀ (insertFault : Bool) (fb : FbState) (db : StaffStore)
        (name department email password : String) (a : FbAccount),
      (name == "" || department == "" || email == "" || password == "") = false →
      validEmailShape email = true →
      ¬ password.length < 6 →
      db.docs.any (fun d => d.email == jsTrim (jsToLower email)) = false →
      validEmailShape (jsTrim (jsToLower email)) = true →
      fb.lookup (jsTrim (jsToLower email)) = some a →
      insertFault = false →
      addStaff insertFault fb db name department email password =
        ⟨201, none,
          (fb,
           ⟨db.docs ++ [⟨db.nextOid, a.uid, jsTrim name, jsTrim department,
              jsTrim (jsToLower email), password⟩], db.nextOid + 1⟩)⟩) :=
  ⟨addStudent_conflict_rejected, addStudent_conflict_no_mutation,
   createUserCtrl_conflict, addStaff_adopts⟩

/-- Witness for C3: with the account u9 under a@x.com already in the
directory, the student create is rejected 400 with untouched stores, the
generic-user create responds 400 with untouched stores, and the staff
create adopts u9 and answers 201. -/
theorem c3_identity_conflict_witness :
    (addStudent false false ⟨[⟨"u9", "a@x.com", "pw123456", "Old"⟩], 5⟩ ⟨[], 0⟩
        "Ann" "CS" "a@x.com" "secret1" "cs101" "Active" =
      ⟨400, some "Email already exists in Firebase authentication system",
        (⟨[⟨"u9", "a@x.com", "pw123456", "Old"⟩], 5⟩, ⟨[], 0⟩)⟩) ∧
    ((createUserCtrl false ⟨[⟨"u9", "a@x.com", "pw123456", "Old"⟩], 5⟩ ⟨[], 0, 7⟩
        "Ann" "a@x.com" "secret1" "student" none).statusOf = some 400) ∧
    (addStaff false ⟨[⟨"u9", "a@x.com", "pw123456", "Old"⟩], 5⟩ ⟨[], 0⟩
        "Ann" "CS" "a@x.com" "secret1" =
      ⟨201, none,
        (⟨[⟨"u9", "a@x.com", "pw123456", "Old"⟩], 5⟩,
         ⟨[⟨0, "u9", "Ann", "CS", "a@x.com", "secret1"⟩], 1⟩)⟩) := by
  refine ⟨?_, ?_, ?_⟩
  · exact c3_identity_conflict.1 false false ⟨[⟨"u9", "a@x.com", "pw123456", "Old"⟩], 5⟩
      ⟨[], 0⟩ "Ann" "CS" "a@x.com" "secret1" "cs101" "Active"
      ⟨"u9", "a@x.com", "pw123456", "Old"⟩
      (by decide) (by decide) (by decide) (by decide) (by decide) (by decide)
      (by decide) (by decide) (by decide)
  · exact (c3_identity_conflict.2.2.1 false ⟨[⟨"u9", "a@x.com", "pw123456", "Old"⟩], 5⟩
      ⟨[], 0, 7⟩ "Ann" "a@x.com" "secret1" "student" none (by decide)).1
  · exact c3_identity_conflict.2.2.2 false ⟨[⟨"u9", "a@x.com", "pw123456", "Old"⟩], 5⟩
      ⟨[], 0⟩ "Ann" "CS" "a@x.com" "secret1" ⟨"u9", "a@x.com", "pw123456", "Old"⟩
      (by decide) (by decide) (by decide) (by decide) (by decide) (by decide) rfl

/-! ## C4: identity-deletion tolerance on delete -/

theorem deleteStudentById_found_ok (fb : FbState) (db : StudentStore) (id : Nat)
    (d : StudentDoc) (h : db.docs.find? (fun x => x.oid == id) = some d) :
    (deleteStudentById false fb db id).status = 200 ∧
    (deleteStudentById false fb db id).state.2 =
      ⟨removeFirst (fun x => x.oid == id) db.docs, db.nextOid⟩ := by
  unfold deleteStudentById
  rw [h]
  simp only [fbDeleteUserF, Bool.false_eq_true, if_false]
  unfold fbDeleteUser
  split
  · simp
  · simp
  · rename_i x e hne heq
    split at heq
    · cases heq
    · cases heq
      exact absurd rfl hne

theorem deleteStudentById_fault_blocked (fb : FbState) (db : StudentStore) (id : Nat)
    (d : StudentDoc) (h : db.docs.find? (fun x => x.oid == id) = some d) :
    deleteStudentById true fb db id =
      ⟨400, some "Firebase deletion failed", (fb, db)⟩ := by
  unfold deleteStudentById
  rw [h]
  simp [fbDeleteUserF]

theorem deleteStaffById_always (fault : Bool) (fb : FbState) (db : StaffStore)
    (id : String) (d : StaffDoc) (h : db.docs.find? (fun x => x.staffId == id) = some d) :
    (deleteStaffById fault fb db id).status = 200 ∧
    (deleteStaffById fault fb db id).state.2 =
      ⟨removeFirst (fun x => x.staffId == id) db.docs, db.nextOid⟩ := by
  unfold deleteStaffById
  rw [h]
  exact ⟨rfl, rfl⟩

theorem deleteStudentV2ById_always (fault : Bool) (fb : FbState) (db : SStore)
    (key : String) (d : SDoc) (h : db.findByKey key = some d) :
    (deleteStudentV2ById fault fb db key).status = 200 ∧
    (deleteStudentV2ById fault fb db key).state.2 =
      ⟨removeFirst (fun x => x.oid == d.oid) db.docs, db.nextOid⟩ := by
  unfold deleteStudentV2ById
  rw [h]
  exact ⟨rfl, rfl⟩

/-- C4 counterexample. A student exists (object id 0, identity u1) and the
identity deletion fails with an error other than not-found: DELETE
/student/:id answers 400 and the profile row is NOT deleted — contradicting
the claim that the profile is deleted regardless of the identity-deletion
outcome. -/
theorem c4_student_delete_blocked :
    deleteStudentById true ⟨[⟨"u1", "a@x.com", "pw1234", "Ann"⟩], 1⟩
        ⟨[⟨0, "R1", "u1", "Ann", "CS", "a@x.com", "pw1234", "Active"⟩], 1⟩ 0 =
      ⟨400, some "Firebase deletion failed",
        (⟨[⟨"u1", "a@x.com", "pw1234", "Ann"⟩], 1⟩,
         ⟨[⟨0, "R1", "u1", "Ann", "CS", "a@x.com", "pw1234", "Active"⟩], 1⟩)⟩ := by
  decide

/-- C4 (amended). Identity-deletion "not found" is treated as success on
every delete path, and the staff and V2-student by-id deletes remove the
profile row regardless of the identity-deletion outcome; the student by-id
delete, however, removes the profile only when the identity deletion
succeeds or fails with not-found — an identity deletion failing with any
other error aborts the call with 400 and leaves the profile row in place. -/
theorem c4_delete_tolerance :
    (∀ (fb : FbState) (db : StudentStore) (id : Nat) (d : StudentDoc),
      db.docs.find? (fun x => x.oid == id) = some d →
      (deleteStudentById false fb db id).status = 200 ∧
      (deleteStudentById false fb db id).state.2 =
        ⟨removeFirst (fun x => x.oid == id) db.docs, db.nextOid⟩) ∧
    (∀ (fb : FbState) (db : StudentStore) (id : Nat) (d : StudentDoc),
      db.docs.find? (fun x => x.oid == id) = some d →
      deleteStudentById true fb db id =
        ⟨400, some "Firebase deletion failed", (fb, db)⟩) ∧
    (∀ (fault : Bool) (fb : FbState) (db : StaffStore) (id : String) (d : StaffDoc),
      db.docs.find? (fun x => x.staffId == id) = some d →
      (deleteStaffById fault fb db id).status = 200 ∧
      (deleteStaffById fault fb db id).state.2 =
        ⟨removeFirst (fun x => x.staffId == id) db.docs, db.nextOid⟩) ∧
    (∀ (fault : Bool) (fb : FbState) (db : SStore) (key : String) (d : SDoc),
      db.findByKey key = some d →
      (deleteStudentV2ById fault fb db key).status = 200 ∧
      (deleteStudentV2ById fault fb db key).state.2 =
        ⟨removeFirst (fun x => x.oid == d.oid) db.docs, db.nextOid⟩) :=
  ⟨deleteStudentById_found_ok, deleteStudentById_fault_blocked,
   deleteStaffById_always, deleteStudentV2ById_always⟩

/-- Witness for C4: concrete single-document stores; the student delete
succeeds without a fault and is blocked 400 by a faulty identity deletion,
while the staff and V2-student deletes answer 200 and drop the row even
under the injected fault. -/
theorem c4_delete_tolerance_witness :
    ((deleteStudentById false ⟨[⟨"u1", "a@x.com", "pw1234", "Ann"⟩], 1⟩
        ⟨[⟨0, "R1", "u1", "Ann", "CS", "a@x.com", "pw1234", "Active"⟩], 1⟩ 0).status = 200) ∧
    (deleteStudentById true ⟨[⟨"u1", "a@x.com", "pw1234", "Ann"⟩], 1⟩
        ⟨[⟨0, "R1", "u1", "Ann", "CS", "a@x.com", "pw1234", "Active"⟩], 1⟩ 0 =
      ⟨400, some "Firebase deletion failed",
        (⟨[⟨"u1", "a@x.com", "pw1234", "Ann"⟩], 1⟩,
         ⟨[⟨0, "R1", "u1", "Ann", "CS", "a@x.com", "pw1234", "Active"⟩], 1⟩)⟩) ∧
    ((deleteStaffById true ⟨[], 0⟩ ⟨[⟨0, "u2", "Bea", "CS", "b@x.com", "pw1234"⟩], 1⟩ "u2").status = 200) ∧
    ((deleteStudentV2ById true ⟨[], 0⟩ ⟨[⟨0, "u3", "Cid", "CS", "c@x.com", "pw1234", ""⟩], 1⟩ "u3").status = 200) := by
  refine ⟨?_, ?_, ?_, ?_⟩
  · exact (c4_delete_tolerance.1 ⟨[⟨"u1", "a@x.com", "pw1234", "Ann"⟩], 1⟩
      ⟨[⟨0, "R1", "u1", "Ann", "CS", "a@x.com", "pw1234", "Active"⟩], 1⟩ 0
      ⟨0, "R1", "u1", "Ann", "CS", "a@x.com", "pw1234", "Active"⟩ (by decide)).1
  · exact c4_delete_tolerance.2.1 ⟨[⟨"u1", "a@x.com", "pw1234", "Ann"⟩], 1⟩
      ⟨[⟨0, "R1", "u1", "Ann", "CS", "a@x.com", "pw1234", "Active"⟩], 1⟩ 0
      ⟨0, "R1", "u1", "Ann", "CS", "a@x.com", "pw1234", "Active"⟩ (by decide)
  · exact (c4_delete_tolerance.2.2.1 true ⟨[], 0⟩
      ⟨[⟨0, "u2", "Bea", "CS", "b@x.com", "pw1234"⟩], 1⟩ "u2"
      ⟨0, "u2", "Bea", "CS", "b@x.com", "pw1234"⟩ (by decide)).1
  · exact (c4_delete_tolerance.2.2.2 true ⟨[], 0⟩
      ⟨[⟨0, "u3", "Cid", "CS", "c@x.com", "pw1234", ""⟩], 1⟩ "u3"
      ⟨0, "u3", "Cid", "CS", "c@x.com", "pw1234", ""⟩ (by decide)).1

/-! ## C6: delete is not idempotent -/

theorem deleteStudentById_absent (fault : Bool) (fb : FbState) (db : StudentStore)
    (id : Nat) (h : db.docs.find? (fun x => x.oid == id) = none) :
    deleteStudentById fault fb db id = ⟨404, some "Student not found", (fb, db)⟩ := by
  unfold deleteStudentById
  rw [h]

theorem deleteStaffById_absent (fault : Bool) (fb : FbState) (db : StaffStore)
    (id : String) (h : db.docs.find? (fun x => x.staffId == id) = none) :
    deleteStaffById fault fb db id = ⟨404, some "Staff not found", (fb, db)⟩ := by
  unfold deleteStaffById
  rw [h]

theorem deleteStudentV2ById_absent (fault : Bool) (fb : FbState) (db : SStore)
    (key : String) (h : db.findByKey key = none) :
    deleteStudentV2ById fault fb db key = ⟨404, some "Student not found", (fb, db)⟩ := by
  unfold deleteStudentV2ById
  rw [h]

/-- C6 counterexample. Two successive deletes of the same student: the first
answers 200 and removes both records; the second — run on the resulting
state — answers 404 with an error body, contradicting the claim that the
second call never returns an error. -/
theorem c6_second_delete_errors :
    deleteStudentById false ⟨[⟨"u1", "a@x.com", "pw1234", "Ann"⟩], 1⟩
        ⟨[⟨0, "R1", "u1", "Ann", "CS", "a@x.com", "pw1234", "Active"⟩], 1⟩ 0 =
      ⟨200, none, (⟨[], 1⟩, ⟨[], 1⟩)⟩ ∧
    deleteStudentById false ⟨[], 1⟩ ⟨[], 1⟩ 0 =
      ⟨404, some "Student not found", (⟨[], 1⟩, ⟨[], 1⟩)⟩ := by
  constructor
  · decide
  · decide

/-- C6 (amended). Delete is not idempotent at the caller interface: a delete
call that finds no profile row answers 404 with a not-found error body (on
every by-id delete path), leaving both stores unchanged, rather than
treating the absence as an already-satisfied goal. -/
theorem c6_delete_not_idempotent :
    (∀ (fault : Bool) (fb : FbState) (db : StudentStore) (id : Nat),
      db.docs.find? (fun x => x.oid == id) = none →
      deleteStudentById fault fb db id = ⟨404, some "Student not found", (fb, db)⟩) ∧
    (∀ (fault : Bool) (fb : FbState) (db : StaffStore) (id : String),
      db.docs.find? (fun x => x.staffId == id) = none →
      deleteStaffById fault fb db id = ⟨404, some "Staff not found", (fb, db)⟩) ∧
    (∀ (fault : Bool) (fb : FbState) (db : SStore) (key : String),
      db.findByKey key = none →
      deleteStudentV2ById fault fb db key = ⟨404, some "Student not found", (fb, db)⟩) :=
  ⟨deleteStudentById_absent, deleteStaffById_absent, deleteStudentV2ById_absent⟩

/-- Witness for C6: deleting from empty stores answers 404 with both stores
unchanged, on all three by-id delete paths. -/
theorem c6_delete_not_idempotent_witness :
    deleteStudentById false ⟨[], 1⟩ ⟨[], 1⟩ 0 =
      ⟨404, some "Student not found", (⟨[], 1⟩, ⟨[], 1⟩)⟩ ∧
    deleteStaffById false ⟨[], 1⟩ ⟨[], 0⟩ "u2" =
      ⟨404, some "Staff not found", (⟨[], 1⟩, ⟨[], 0⟩)⟩ ∧
    deleteStudentV2ById false ⟨[], 1⟩ ⟨[], 0⟩ "u3" =
      ⟨404, some "Student not found", (⟨[], 1⟩, ⟨[], 0⟩)⟩ := by
  refine ⟨?_, ?_, ?_⟩
  · exact c6_delete_not_idempotent.1 false ⟨[], 1⟩ ⟨[], 1⟩ 0 (by decide)
  · exact c6_delete_not_idempotent.2.1 false ⟨[], 1⟩ ⟨[], 0⟩ "u2" (by decide)
  · exact c6_delete_not_idempotent.2.2 false ⟨[], 1⟩ ⟨[], 0⟩ "u3" (by decide)

/-! ## C5: update ordering between the identity directory and the profile store -/

theorem updateUserStudentApply_fault (fb : FbState) (db : StudentStore)
    (user : FbAccount) (lowerOld newEmail name program regNo status newPassword : String)
    (hfield : (newEmail != "" || name != "" || newPassword != "") = true) :
    updateUserStudentApply true fb db user lowerOld newEmail name program regNo status newPassword =
      ⟨500, some "Failed to update user", (fb, db)⟩ := by
  cases hE : newEmail != "" with
  | true => simp [updateUserStudentApply, FbUpdate.isEmpty, fbUpdateUser, hE]
  | false =>
    cases hN : name != "" with
    | true => simp [updateUserStudentApply, FbUpdate.isEmpty, fbUpdateUser, hE, hN]
    | false =>
      cases hP : newPassword != "" with
      | true => simp [updateUserStudentApply, FbUpdate.isEmpty, fbUpdateUser, hE, hN, hP]
      | false =>
        rw [hE, hN, hP] at hfield
        simp at hfield

theorem updateUserStudent_identity_first (fb : FbState) (db : StudentStore)
    (oldEmail newEmail name program regNo status newPassword : String)
    (hfield : (newEmail != "" || name != "" || newPassword != "") = true) :
    (updateUserStudent true fb db oldEmail newEmail name program regNo status newPassword).state.2 = db ∧
    (updateUserStudent true fb db oldEmail newEmail name program regNo status newPassword).status ≠ 200 := by
  simp only [updateUserStudent]
  repeat' split
  all_goals
    first
      | exact ⟨rfl, by simp⟩
      | (rw [updateUserStudentApply_fault _ _ _ _ _ _ _ _ _ _ hfield]
         exact ⟨rfl, by simp⟩)

theorem updateUsersStaffApply_fault (fb : FbState) (staffDb : StaffStore) (sdb : SStore)
    (user : FbAccount) (lowerOld newEmail newPassword name department program tp : String)
    (hfield : (newEmail != "" || name != "" || newPassword != "") = true) :
    updateUsersStaffApply true fb staffDb sdb user lowerOld newEmail newPassword name department program tp =
      ⟨500, some "Failed to update user", (fb, staffDb, sdb)⟩ := by
  cases hE : newEmail != "" with
  | true => simp [updateUsersStaffApply, FbUpdate.isEmpty, fbUpdateUser, hE]
  | false =>
    cases hN : name != "" with
    | true => simp [updateUsersStaffApply, FbUpdate.isEmpty, fbUpdateUser, hE, hN]
    | false =>
      cases hP : newPassword != "" with
      | true => simp [updateUsersStaffApply, FbUpdate.isEmpty, fbUpdateUser, hE, hN, hP]
      | false =>
        rw [hE, hN, hP] at hfield
        simp at hfield

theorem updateUsersStaff_identity_first (fb : FbState) (staffDb : StaffStore) (sdb : SStore)
    (oldEmail newEmail newPassword name department program tp : String)
    (hfield : (newEmail != "" || name != "" || newPassword != "") = true) :
    (updateUsersStaffRoute true fb staffDb sdb oldEmail newEmail newPassword name department program tp).state.2 = (staffDb, sdb) ∧
    (updateUsersStaffRoute true fb staffDb sdb oldEmail newEmail newPassword name department program tp).status ≠ 200 := by
  simp only [updateUsersStaffRoute]
  repeat' split
  all_goals
    first
      | exact ⟨rfl, by simp⟩
      | (rw [updateUsersStaffApply_fault _ _ _ _ _ _ _ _ _ _ _ hfield]
         exact ⟨rfl, by simp⟩)

theorem updateStudentV2_writes_despite (fb : FbState) (db : SStore)
    (key name email program phone : String) (d : SDoc)
    (h : db.findByKey key = some d) :
    updateStudentV2 true fb db key name email program phone =
      ⟨200, none,
        (fb,
         ⟨updateFirst (fun x => x.oid == d.oid)
           (fun x =>
             { x with
               name := if name != "" then name else x.name
               email := if email != "" then jsToLower email else x.email
               program := if program != "" then program else x.program
               phone := if phone != "" then phone else x.phone })
           db.docs, db.nextOid⟩)⟩ := by
  unfold updateStudentV2
  rw [h]
  repeat' split
  all_goals simp_all [fbUpdateUser]

/-- C5 counterexample. A V2 student update changing the email while the
identity-side update fails (injected transient provider failure): the
handler swallows the failure, writes the new email into the profile store
anyway and answers 200 — the profile write happened although the identity
update threw, and the two stores now disagree. -/
theorem c5_profile_written_despite_identity_failure :
    updateStudentV2 true ⟨[⟨"u1", "a@x.com", "pw1234", "Ann"⟩], 1⟩
        ⟨[⟨0, "u1", "Ann", "CS", "a@x.com", "pw1234", ""⟩], 1⟩ "u1" "" "b@x.com" "" "" =
      ⟨200, none,
        (⟨[⟨"u1", "a@x.com", "pw1234", "Ann"⟩], 1⟩,
         ⟨[⟨0, "u1", "Ann", "CS", "b@x.com", "pw1234", ""⟩], 1⟩)⟩ := by
  decide

/-- C5 (amended). The email-keyed update endpoints (student PUT /update-user
and staff/student PUT /users) apply identity-side changes first: whenever
the patch carries an identity-side field and the identity update fails, the
call errors and the profile store is untouched. The id-keyed V2 student
update instead swallows every identity-side failure and applies the profile
patch regardless, answering 200. -/
theorem c5_update_order :
    (∀ (fb : FbState) (db : StudentStore)
        (oldEmail newEmail name program regNo status newPassword : String),
      (newEmail != "" || name != "" || newPassword != "") = true →
      (updateUserStudent true fb db oldEmail newEmail name program regNo status newPassword).state.2 = db ∧
      (updateUserStudent true fb db oldEmail newEmail name program regNo status newPassword).status ≠ 200) ∧
    (∀ (fb : FbState) (staffDb : StaffStore) (sdb : SStore)
        (oldEmail newEmail newPassword name department program tp : String),
      (newEmail != "" || name != "" || newPassword != "") = true →
      (updateUsersStaffRoute true fb staffDb sdb oldEmail newEmail newPassword name department program tp).state.2 = (staffDb, sdb) ∧
      (updateUsersStaffRoute true fb staffDb sdb oldEmail newEmail newPassword name department program tp).status ≠ 200) ∧
    (∀ (fb : FbState) (db : SStore) (key name email program phone : String) (d : SDoc),
      db.findByKey key = some d →
      updateStudentV2 true fb db key name email program phone =
        ⟨200, none,
          (fb,
           ⟨updateFirst (fun x => x.oid == d.oid)
             (fun x =>
               { x with
                 name := if name != "" then name else x.name
                 email := if email != "" then jsToLower email else x.email
                 program := if program != "" then program else x.program
                 phone := if phone != "" then phone else x.phone })
             db.docs, db.nextOid⟩)⟩) :=
  ⟨updateUserStudent_identity_first, updateUsersStaff_identity_first,
   updateStudentV2_writes_despite⟩

/-- Witness for C5: with a failing identity update, the student
update-by-email leaves the profile store untouched and errors; the staff
update-by-email does the same; the V2 update-by-id still writes the profile
and answers 200. -/
theorem c5_update_order_witness :
    ((updateUserStudent true ⟨[⟨"u1", "a@x.com", "pw1234", "Ann"⟩], 1⟩
        ⟨[⟨0, "R1", "u1", "Ann", "CS", "a@x.com", "pw1234", "Active"⟩], 1⟩
        "a@x.com" "b@x.com" "" "" "" "" "").state.2 =
      ⟨[⟨0, "R1", "u1", "Ann", "CS", "a@x.com", "pw1234", "Active"⟩], 1⟩) ∧
    ((updateUsersStaffRoute true ⟨[⟨"u1", "a@x.com", "pw1234", "Ann"⟩], 1⟩
        ⟨[⟨0, "u1", "Ann", "CS", "a@x.com", "pw1234"⟩], 1⟩ ⟨[], 0⟩
        "a@x.com" "b@x.com" "" "" "" "" "staff").status ≠ 200) ∧
    (updateStudentV2 true ⟨[⟨"u1", "a@x.com", "pw1234", "Ann"⟩], 1⟩
        ⟨[⟨0, "u1", "Ann", "CS", "a@x.com", "pw1234", ""⟩], 1⟩ "u1" "" "c@x.com" "" "" =
      ⟨200, none,
        (⟨[⟨"u1", "a@x.com", "pw1234", "Ann"⟩], 1⟩,
         ⟨updateFirst (fun x => x.oid == 0)
           (fun x =>
             { x with
               name := if "" != "" then "" else x.name
               email := if "c@x.com" != "" then jsToLower "c@x.com" else x.email
               program := if "" != "" then "" else x.program
               phone := if "" != "" then "" else x.phone })
           [⟨0, "u1", "Ann", "CS", "a@x.com", "pw1234", ""⟩], 1⟩)⟩) := by
  refine ⟨?_, ?_, ?_⟩
  · exact (c5_update_order.1 ⟨[⟨"u1", "a@x.com", "pw1234", "Ann"⟩], 1⟩
      ⟨[⟨0, "R1", "u1", "Ann", "CS", "a@x.com", "pw1234", "Active"⟩], 1⟩
      "a@x.com" "b@x.com" "" "" "" "" "" (by decide)).1
  · exact (c5_update_order.2.1 ⟨[⟨"u1", "a@x.com", "pw1234", "Ann"⟩], 1⟩
      ⟨[⟨0, "u1", "Ann", "CS", "a@x.com", "pw1234"⟩], 1⟩ ⟨[], 0⟩
      "a@x.com" "b@x.com" "" "" "" "" "staff" (by decide)).2
  · exact c5_update_order.2.2 ⟨[⟨"u1", "a@x.com", "pw1234", "Ann"⟩], 1⟩
      ⟨[⟨0, "u1", "Ann", "CS", "a@x.com", "pw1234", ""⟩], 1⟩ "u1" "" "c@x.com" "" ""
      ⟨0, "u1", "Ann", "CS", "a@x.com", "pw1234", ""⟩ (by decide)

/-! ## C7: validation before mutation on update -/

theorem updateUsersStaff_email_validated (fault : Bool) (fb : FbState)
    (staffDb : StaffStore) (sdb : SStore)
    (oldEmail newEmail newPassword name department program tp : String)
    (g1 : (oldEmail == "" || (tp != "staff" && tp != "student")) = false)
    (g2 : (newEmail == "" && newPassword == "" && name == "" && department == "" && program == "") = false)
    (g3 : (newEmail != "" && !validEmailShape newEmail) = true) :
    updateUsersStaffRoute fault fb staffDb sdb oldEmail newEmail newPassword name department program tp =
      ⟨400, some "Invalid new email format", (fb, staffDb, sdb)⟩ := by
  simp only [updateUsersStaffRoute, g1, g2, g3, Bool.false_eq_true, if_false, if_true]

theorem updateUsersStaff_password_validated (fault : Bool) (fb : FbState)
    (staffDb : StaffStore) (sdb : SStore)
    (oldEmail newEmail newPassword name department program tp : String)
    (g1 : (oldEmail == "" || (tp != "staff" && tp != "student")) = false)
    (g2 : (newEmail == "" && newPassword == "" && name == "" && department == "" && program == "") = false)
    (g3 : (newEmail != "" && !validEmailShape newEmail) = false)
    (g4 : (newPassword != "" && newPassword.length < 6) = true) :
    updateUsersStaffRoute fault fb staffDb sdb oldEmail newEmail newPassword name department program tp =
      ⟨400, some "New password must be at least 6 characters", (fb, staffDb, sdb)⟩ := by
  simp only [updateUsersStaffRoute, g1, g2, g3, g4, Bool.false_eq_true, if_false, if_true]

theorem updateUserStudent_email_unvalidated (fb : FbState) (db : StudentStore)
    (oldEmail newEmail name program regNo status newPassword : String)
    (user : FbAccount) (fault : Bool)
    (g1 : (oldEmail == "") = false)
    (g2 : (db.docs.find? (fun x => x.email == jsTrim (jsToLower oldEmail))).isSome = true)
    (g3 : (newPassword != "" && newPassword.length < 6) = false)
    (g4 : (status != "" && status != "Active" && status != "Hold") = false)
    (g5 : validEmailShape (jsTrim (jsToLower oldEmail)) = true)
    (g6 : fb.lookup (jsTrim (jsToLower oldEmail)) = some user)
    (g7 : (newEmail != "" && jsTrim (jsToLower oldEmail) != jsToLower newEmail) = true)
    (g8 : validEmailShape (jsToLower newEmail) = false) :
    updateUserStudent fault fb db oldEmail newEmail name program regNo status newPassword =
      ⟨500, some "Failed to update user", (fb, db)⟩ := by
  obtain ⟨d, hd⟩ := Option.isSome_iff_exists.mp g2
  simp only [updateUserStudent, fbGetUserByEmail, g1, g3, g4, g5, g6, g7, g8, hd,
    Bool.false_eq_true, Bool.not_true, Bool.not_false, if_false, if_true]

/-- C7 counterexample. A student update whose patch carries the malformed
new email "bademail": the handler performs no format validation, reaches the
Identity Directory, and surfaces the provider's invalid-email failure as a
500 — not as a Validation error produced before any store access. -/
theorem c7_update_email_not_validated :
    updateUserStudent false ⟨[⟨"u1", "a@x.com", "pw1234", "Ann"⟩], 1⟩
        ⟨[⟨0, "R1", "u1", "Ann", "CS", "a@x.com", "pw1234", "Active"⟩], 1⟩
        "a@x.com" "bademail" "" "" "" "" "" =
      ⟨500, some "Failed to update user",
        (⟨[⟨"u1", "a@x.com", "pw1234", "Ann"⟩], 1⟩,
         ⟨[⟨0, "R1", "u1", "Ann", "CS", "a@x.com", "pw1234", "Active"⟩], 1⟩)⟩ := by
  decide

/-- C7 (amended). The staff/student PUT /users endpoint validates the new
email's format and the new password's six-character minimum before any
mutation, answering 400 with both stores untouched. The student PUT
/update-user endpoint validates only the new password (and status): a
malformed new email is not pre-validated — the call reaches the Identity
Directory and ends 500 with the provider's failure, though both stores are
still unchanged because the identity step precedes the profile write. -/
theorem c7_update_validation :
    (∀ (fault : Bool) (fb : FbState) (staffDb : StaffStore) (sdb : SStore)
        (oldEmail newEmail newPassword name department program tp : String),
      (oldEmail == "" || (tp != "staff" && tp != "student")) = false →
      (newEmail == "" && newPassword == "" && name == "" && department == "" && program == "") = false →
      (newEmail != "" && !validEmailShape newEmail) = true →
      updateUsersStaffRoute fault fb staffDb sdb oldEmail newEmail newPassword name department program tp =
        ⟨400, some "Invalid new email format", (fb, staffDb, sdb)⟩) ∧
    (∀ (fault : Bool) (fb : FbState) (staffDb : StaffStore) (sdb : SStore)
        (oldEmail newEmail newPassword name department program tp : String),
      (oldEmail == "" || (tp != "staff" && tp != "student")) = false →
      (newEmail == "" && newPassword == "" && name == "" && department == "" && program == "") = false →
      (newEmail != "" && !validEmailShape newEmail) = false →
      (newPassword != "" && newPassword.length < 6) = true →
      updateUsersStaffRoute fault fb staffDb sdb oldEmail newEmail newPassword name department program tp =
        ⟨400, some "New password must be at least 6 characters", (fb, staffDb, sdb)⟩) ∧
    (∀ (fb : FbState) (db : StudentStore)
        (oldEmail newEmail name program regNo status newPassword : String)
        (user : FbAccount) (fault : Bool),
      (oldEmail == "") = false →
      (db.docs.find? (fun x => x.email == jsTrim (jsToLower oldEmail))).isSome = true →
      (newPassword != "" && newPassword.length < 6) = false →
      (status != "" && status != "Active" && status != "Hold") = false →
      validEmailShape (jsTrim (jsToLower oldEmail)) = true →
      fb.lookup (jsTrim (jsToLower oldEmail)) = some user →
      (newEmail != "" && jsTrim (jsToLower oldEmail) != jsToLower newEmail) = true →
      validEmailShape (jsToLower newEmail) = false →
      updateUserStudent fault fb db oldEmail newEmail name program regNo status newPassword =
        ⟨500, some "Failed to update user", (fb, db)⟩) :=
  ⟨updateUsersStaff_email_validated, updateUsersStaff_password_validated,
   updateUserStudent_email_unvalidated⟩

/-- Witness for C7: the staff endpoint rejects the malformed email "bad" and
the 3-character password with 400 before touching either store; the student
endpoint passes "bademail" through to the directory and ends 500. -/
theorem c7_update_validation_witness :
    (updateUsersStaffRoute false ⟨[], 0⟩ ⟨[], 0⟩ ⟨[], 0⟩
        "a@x.com" "bad" "" "" "" "" "staff" =
      ⟨400, some "Invalid new email format", (⟨[], 0⟩, ⟨[], 0⟩, ⟨[], 0⟩)⟩) ∧
    (updateUsersStaffRoute false ⟨[], 0⟩ ⟨[], 0⟩ ⟨[], 0⟩
        "a@x.com" "" "abc" "" "" "" "staff" =
      ⟨400, some "New password must be at least 6 characters", (⟨[], 0⟩, ⟨[], 0⟩, ⟨[], 0⟩)⟩) ∧
    (updateUserStudent false ⟨[⟨"u1", "a@x.com", "pw1234", "Ann"⟩], 1⟩
        ⟨[⟨0, "R1", "u1", "Ann", "CS", "a@x.com", "pw1234", "Active"⟩], 1⟩
        "a@x.com" "bademail" "" "" "" "" "" =
      ⟨500, some "Failed to update user",
        (⟨[⟨"u1", "a@x.com", "pw1234", "Ann"⟩], 1⟩,
         ⟨[⟨0, "R1", "u1", "Ann", "CS", "a@x.com", "pw1234", "Active"⟩], 1⟩)⟩) := by
  refine ⟨?_, ?_, ?_⟩
  · exact c7_update_validation.1 false ⟨[], 0⟩ ⟨[], 0⟩ ⟨[], 0⟩
      "a@x.com" "bad" "" "" "" "" "staff" (by decide) (by decide) (by decide)
  · exact c7_update_validation.2.1 false ⟨[], 0⟩ ⟨[], 0⟩ ⟨[], 0⟩
      "a@x.com" "" "abc" "" "" "" "staff" (by decide) (by decide) (by decide) (by decide)
  · exact c7_update_validation.2.2 ⟨[⟨"u1", "a@x.com", "pw1234", "Ann"⟩], 1⟩
      ⟨[⟨0, "R1", "u1", "Ann", "CS", "a@x.com", "pw1234", "Active"⟩], 1⟩
      "a@x.com" "bademail" "" "" "" "" "" ⟨"u1", "a@x.com", "pw1234", "Ann"⟩ false
      (by decide) (by decide) (by decide) (by decide) (by decide) (by decide)
      (by decide) (by decide)

/-! ## C8: registration-number validation, normalization, uniqueness -/

theorem addStudent_regno_shape (insertFault cleanupFault : Bool) (fb : FbState)
    (db : StudentStore) (name program email password regNo status : String)
    (h1 : (name == "" || program == "" || email == "" || password == "" ||
      regNo == "" || status == "") = false)
    (h2 : (status != "Active" && status != "Hold") = false)
    (h3 : validEmailShape email = true)
    (h4 : validRegNoShape regNo = false) :
    addStudent insertFault cleanupFault fb db name program email password regNo status =
      ⟨400, some "Registration number must be alphanumeric", (fb, db)⟩ := by
  simp [addStudent, h1, h2, h3, h4]

theorem addStudent_success_normalizes (fb : FbState) (db : StudentStore)
    (name program email password regNo status : String)
    (h1 : (name == "" || program == "" || email == "" || password == "" ||
      regNo == "" || status == "") = false)
    (h2 : (status != "Active" && status != "Hold") = false)
    (h3 : validEmailShape email = true)
    (h4 : validRegNoShape regNo = true)
    (h5 : ¬ password.length < 6)
    (h6 : db.docs.any (fun d => d.email == jsTrim (jsToLower email)) = false)
    (h7 : db.docs.any (fun d => d.regNo == jsTrim (jsToUpper regNo)) = false)
    (h8 : validEmailShape (jsTrim (jsToLower email)) = true)
    (h9 : fb.lookup (jsTrim (jsToLower email)) = none) :
    addStudent false false fb db name program email password regNo status =
      ⟨201, none,
        (⟨fb.accounts ++ [⟨freshUid fb.nextUid, jsTrim (jsToLower email), password, jsTrim name⟩],
          fb.nextUid + 1⟩,
         ⟨db.docs ++ [⟨db.nextOid, jsTrim (jsToUpper regNo), freshUid fb.nextUid, jsTrim name,
            jsTrim program, jsTrim (jsToLower email), password, status⟩], db.nextOid + 1⟩)⟩ := by
  simp [addStudent, fbGetUserByEmail, fbCreateUser, studentInsert,
    h1, h2, h3, h4, h5, h6, h7, h8, h9]

theorem addStudent_regno_conflict (insertFault cleanupFault : Bool) (fb : FbState)
    (db : StudentStore) (name program email password regNo status : String)
    (h1 : (name == "" || program == "" || email == "" || password == "" ||
      regNo == "" || status == "") = false)
    (h2 : (status != "Active" && status != "Hold") = false)
    (h3 : validEmailShape email = true)
    (h4 : validRegNoShape regNo = true)
    (h5 : ¬ password.length < 6)
    (h6 : db.docs.any (fun d => d.email == jsTrim (jsToLower email)) = false)
    (h7 : db.docs.any (fun d => d.regNo == jsTrim (jsToUpper regNo)) = true) :
    addStudent insertFault cleanupFault fb db name program email password regNo status =
      ⟨400, some "Registration number already exists in database", (fb, db)⟩ := by
  simp [addStudent, h1, h2, h3, h4, h5, h6, h7]

/-- C8. The student create validates the registration number as
alphanumeric; a successful create stores it upper-cased and trimmed while
the identity account records the normalized email; and a create whose
normalized registration number already exists in the store is rejected 400
with both stores untouched — in particular before any identity account is
created. -/
theorem c8_regno_normalization :
    (∀ (insertFault cleanupFault : Bool) (fb : FbState) (db : StudentStore)
        (name program email password regNo status : String),
      (name == "" || program == "" || email == "" || password == "" ||
        regNo == "" || status == "") = false →
      (status != "Active" && status != "Hold") = false →
      validEmailShape email = true →
      validRegNoShape regNo = false →
      addStudent insertFault cleanupFault fb db name program email password regNo status =
        ⟨400, some "Registration number must be alphanumeric", (fb, db)⟩) ∧
    (∀ (fb : FbState) (db : StudentStore)
        (name program email password regNo status : String),
      (name == "" || program == "" || email == "" || password == "" ||
        regNo == "" || status == "") = false →
      (status != "Active" && status != "Hold") = false →
      validEmailShape email = true →
      validRegNoShape regNo = true →
      ¬ password.length < 6 →
      db.docs.any (fun d => d.email == jsTrim (jsToLower email)) = false →
      db.docs.any (fun d => d.regNo == jsTrim (jsToUpper regNo)) = false →
      validEmailShape (jsTrim (jsToLower email)) = true →
      fb.lookup (jsTrim (jsToLower email)) = none →
      addStudent false false fb db name program email password regNo status =
        ⟨201, none,
          (⟨fb.accounts ++ [⟨freshUid fb.nextUid, jsTrim (jsToLower email), password, jsTrim name⟩],
            fb.nextUid + 1⟩,
           ⟨db.docs ++ [⟨db.nextOid, jsTrim (jsToUpper regNo), freshUid fb.nextUid, jsTrim name,
              jsTrim program, jsTrim (jsToLower email), password, status⟩], db.nextOid + 1⟩)⟩) ∧
    (∀ (insertFault cleanupFault : Bool) (fb : FbState) (db : StudentStore)
        (name program email password regNo status : String),
      (name == "" || program == "" || email == "" || password == "" ||
        regNo == "" || status == "") = false →
      (status != "Active" && status != "Hold") = false →
      validEmailShape email = true →
      validRegNoShape regNo = true →
      ¬ password.length < 6 →
      db.docs.any (fun d => d.email == jsTrim (jsToLower email)) = false →
      db.docs.any (fun d => d.regNo == jsTrim (jsToUpper regNo)) = true →
      addStudent insertFault cleanupFault fb db name program email password regNo status =
        ⟨400, some "Registration number already exists in database", (fb, db)⟩) :=
  ⟨addStudent_regno_shape, addStudent_success_normalizes, addStudent_regno_conflict⟩

/-- Witness for C8: “cs?101” is rejected as non-alphanumeric; creating with
regNo “cs101” stores “CS101”; a second create with regNo “cs101” against a
store already holding “CS101” is rejected 400 with the identity directory
untouched. -/
theorem c8_regno_normalization_witness :
    (addStudent false false ⟨[], 0⟩ ⟨[], 0⟩ "Ann" "CS" "a@x.com" "secret1" "cs?101" "Active" =
      ⟨400, some "Registration number must be alphanumeric", (⟨[], 0⟩, ⟨[], 0⟩)⟩) ∧
    ((addStudent false false ⟨[], 0⟩ ⟨[], 0⟩ "Ann" "CS" "a@x.com" "secret1" "cs101" "Active").state.2.docs.map
      (fun d => d.regNo) = ["CS101"]) ∧
    (addStudent false false ⟨[], 0⟩
        ⟨[⟨0, "CS101", "u0", "Bea", "CS", "b@x.com", "pw1234", "Active"⟩], 1⟩
        "Ann" "CS" "a@x.com" "secret1" "cs101" "Active" =
      ⟨400, some "Registration number already exists in database",
        (⟨[], 0⟩, ⟨[⟨0, "CS101", "u0", "Bea", "CS", "b@x.com", "pw1234", "Active"⟩], 1⟩)⟩) := by
  refine ⟨?_, ?_, ?_⟩
  · exact c8_regno_normalization.1 false false ⟨[], 0⟩ ⟨[], 0⟩
      "Ann" "CS" "a@x.com" "secret1" "cs?101" "Active"
      (by decide) (by decide) (by decide) (by decide)
  · rw [c8_regno_normalization.2.1 ⟨[], 0⟩ ⟨[], 0⟩
      "Ann" "CS" "a@x.com" "secret1" "cs101" "Active"
      (by decide) (by decide) (by decide) (by decide) (by decide) (by decide)
      (by decide) (by decide) (by decide)]
    decide
  · exact c8_regno_normalization.2.2 false false ⟨[], 0⟩
      ⟨[⟨0, "CS101", "u0", "Bea", "CS", "b@x.com", "pw1234", "Active"⟩], 1⟩
      "Ann" "CS" "a@x.com" "secret1" "cs101" "Active"
      (by decide) (by decide) (by decide) (by decide) (by decide) (by decide) (by decide)

/-! ## C9: delete-by-email removes the identity before the profile check -/

theorem deleteUsersStaff_nonatomic (fb : FbState) (staffDb : StaffStore) (sdb : SStore)
    (email : String) (a : FbAccount)
    (h1 : (email == "") = false)
    (h2 : validEmailShape (jsTrim (jsToLower email)) = true)
    (h3 : fb.lookup (jsTrim (jsToLower email)) = some a)
    (h4 : staffDb.docs.any (fun d => d.email == jsTrim (jsToLower email)) = false) :
    deleteUsersStaffRoute fb staffDb sdb email "staff" =
      ⟨404, some "staff not found in database",
        (⟨fb.accounts.filter (fun b => b.uid != a.uid), fb.nextUid⟩, staffDb, sdb)⟩ := by
  have hmem : a ∈ fb.accounts :=
    List.mem_of_find?_eq_some (by simpa [FbState.lookup] using h3)
  have hany : fb.accounts.any (fun b => b.uid == a.uid) = true :=
    List.any_eq_true.mpr ⟨a, hmem, by simp⟩
  simp [deleteUsersStaffRoute, fbGetUserByEmail, fbDeleteUser, h1, h2, h3, h4, hany]

theorem deleteUsersV2_nonatomic (fb : FbState) (db : SStore)
    (email : String) (a : FbAccount)
    (h1 : (email == "") = false)
    (h2 : validEmailShape (jsTrim (jsToLower email)) = true)
    (h3 : fb.lookup (jsTrim (jsToLower email)) = some a)
    (h4 : db.docs.any (fun d => d.email == jsTrim (jsToLower email)) = false) :
    deleteUsersV2Route false fb db email "student" =
      ⟨404, some "Student not found in database",
        (⟨fb.accounts.filter (fun b => b.uid != a.uid), fb.nextUid⟩, db)⟩ := by
  have hmem : a ∈ fb.accounts :=
    List.mem_of_find?_eq_some (by simpa [FbState.lookup] using h3)
  have hany : fb.accounts.any (fun b => b.uid == a.uid) = true :=
    List.any_eq_true.mpr ⟨a, hmem, by simp⟩
  simp [deleteUsersV2Route, fbGetUserByEmail, fbDeleteUser, fbDeleteUserF,
    h1, h2, h3, h4, hany]

/-- C9. The delete-by-email handlers are not atomic on their NotFound error:
when the Identity Directory holds an account under the email but the profile
store has no matching row, both handlers delete the identity account first
and only then discover the missing profile, answering 404 — the error return
does not imply an unchanged state. -/
theorem c9_delete_by_email_nonatomic :
    (∀ (fb : FbState) (staffDb : StaffStore) (sdb : SStore)
        (email : String) (a : FbAccount),
      (email == "") = false →
      validEmailShape (jsTrim (jsToLower email)) = true →
      fb.lookup (jsTrim (jsToLower email)) = some a →
      staffDb.docs.any (fun d => d.email == jsTrim (jsToLower email)) = false →
      deleteUsersStaffRoute fb staffDb sdb email "staff" =
        ⟨404, some "staff not found in database",
          (⟨fb.accounts.filter (fun b => b.uid != a.uid), fb.nextUid⟩, staffDb, sdb)⟩) ∧
    (∀ (fb : FbState) (db : SStore) (email : String) (a : FbAccount),
      (email == "") = false →
      validEmailShape (jsTrim (jsToLower email)) = true →
      fb.lookup (jsTrim (jsToLower email)) = some a →
      db.docs.any (fun d => d.email == jsTrim (jsToLower email)) = false →
      deleteUsersV2Route false fb db email "student" =
        ⟨404, some "Student not found in database",
          (⟨fb.accounts.filter (fun b => b.uid != a.uid), fb.nextUid⟩, db)⟩) :=
  ⟨deleteUsersStaff_nonatomic, deleteUsersV2_nonatomic⟩

/-- Witness for C9: with the account u1 under a@x.com and no profile row,
both delete-by-email handlers answer 404 and the directory ends empty. -/
theorem c9_delete_by_email_nonatomic_witness :
    (deleteUsersStaffRoute ⟨[⟨"u1", "a@x.com", "pw1234", "Ann"⟩], 1⟩ ⟨[], 0⟩ ⟨[], 0⟩
        "a@x.com" "staff" =
      ⟨404, some "staff not found in database", (⟨[], 1⟩, ⟨[], 0⟩, ⟨[], 0⟩)⟩) ∧
    (deleteUsersV2Route false ⟨[⟨"u1", "a@x.com", "pw1234", "Ann"⟩], 1⟩ ⟨[], 0⟩
        "a@x.com" "student" =
      ⟨404, some "Student not found in database", (⟨[], 1⟩, ⟨[], 0⟩)⟩) := by
  constructor
  · rw [c9_delete_by_email_nonatomic.1 ⟨[⟨"u1", "a@x.com", "pw1234", "Ann"⟩], 1⟩
      ⟨[], 0⟩ ⟨[], 0⟩ "a@x.com" ⟨"u1", "a@x.com", "pw1234", "Ann"⟩
      (by decide) (by decide) (by decide) (by decide)]
    decide
  · rw [c9_delete_by_email_nonatomic.2 ⟨[⟨"u1", "a@x.com", "pw1234", "Ann"⟩], 1⟩
      ⟨[], 0⟩ "a@x.com" ⟨"u1", "a@x.com", "pw1234", "Ann"⟩
      (by decide) (by decide) (by decide) (by decide)]
    decide

end EpicBackend
